import Mathlib

set_option maxRecDepth 8192

/-!
Verification development for the CAmp ADM code generators.

The definitions below are shallow embeddings of the Python sources:
`camp/generators/lib/campch_roundtrip.py` (the scrape/merge engine),
`camp/tools/camp.py` (the orchestrator loop), `camp/generators/lib/campsettings.py`,
`camp/generators/lib/camputil.py`, `camp/generators/create_sql.py`,
`camp/generators/create_gen_h.py` and `camp/generators/lib/campch.py`.

Modelling conventions:
* A text file is a `List String` of physical lines; each element is the text of
  one line without its trailing newline.  The Python scraper reads a file with
  `readlines()` (lines carry their terminator) and re-emits captured lines
  verbatim; at line granularity this is the identity, so the embedding stores
  lines without terminators and the write side emits whole lines.  This is
  faithful for files in which every line is newline-terminated.
* The Python code pushes each line at index 0 of a list `c` and pops from the
  end, so lines are consumed in original file order.  The embedding therefore
  represents the queue as a `List String` in file order whose head is the next
  line to be popped.
* Python exceptions are modelled with `Except String`; the string names the
  Python exception that would be raised.
* Python `str.strip()` is modelled by `pstrip` over the characters of the line.
-/

namespace Camp

/-- Characters removed by Python `str.strip()` (ASCII whitespace). -/
def isPySpace (c : Char) : Bool :=
  c == ' ' || c == '\t' || c == '\n' || c == '\r' || c == '\x0b' || c == '\x0c'

/-- Drop trailing characters satisfying `isPySpace`. -/
def dropTrailingSpace (cs : List Char) : List Char :=
  (cs.reverse.dropWhile isPySpace).reverse

/-- Python `str.strip()` on the characters of a line. -/
def pstripL (cs : List Char) : List Char :=
  dropTrailingSpace (cs.dropWhile isPySpace)

/-- Python `line.strip()`. -/
def pstrip (s : String) : String :=
  ⟨pstripL s.data⟩

/-- Python `str.upper()` (character by character, as for the ASCII names
handled here). -/
def pyUpper (s : String) : String :=
  ⟨s.data.map Char.toUpper⟩

/-- Python `str.lower()` / `str.casefold()` (character by character). -/
def pyLower (s : String) : String :=
  ⟨s.data.map Char.toLower⟩

/-- Python `str.startswith`. -/
def pyStartsWith (s pat : String) : Bool :=
  pat.data.isPrefixOf s.data

/-- Lexicographic (code-point) order on character lists, as Python compares
strings. -/
def lexLeL : List Char → List Char → Bool
  | [], _ => true
  | _ :: _, [] => false
  | a :: as, b :: bs =>
    if a = b then lexLeL as bs else decide (a.toNat < b.toNat)

/-- Python `a <= b` on strings. -/
def strLeB (a b : String) : Bool :=
  lexLeL a.data b.data

/-- Insert into an ascending list, keeping it ascending. -/
def insertSorted (x : String) : List String → List String
  | [] => [x]
  | y :: ys => if strLeB x y then x :: y :: ys else y :: insertSorted x ys

/-- Python `sorted` on a collection of strings. -/
def sortNames (l : List String) : List String :=
  l.foldr insertSorted []

/-- Split a character list at a separator character. -/
def splitCharL (sep : Char) : List Char → List (List Char)
  | [] => [[]]
  | c :: rest =>
    match splitCharL sep rest with
    | [] => [[c]]
    | h :: t => if c = sep then [] :: h :: t else (c :: h) :: t

/-- Python `str.split(sep)` for a one-character separator. -/
def pySplitOn (sep : Char) (s : String) : List String :=
  (splitCharL sep s.data).map (fun l => ⟨l⟩)

namespace Roundtrip

/-! Marker constants from `Scraper._make_custom_includes_markers`,
`Scraper._make_custom_functions_markers` and
`H_Scraper._make_custom_type_enum_markers`. -/

def includesStart : String := "/*   START CUSTOM INCLUDES HERE  */"

def includesEnd : String := "/*   STOP CUSTOM INCLUDES HERE  */"

def functionsStart : String := "/*   START CUSTOM FUNCTIONS HERE */"

def functionsEnd : String := "/*   STOP CUSTOM FUNCTIONS HERE  */"

def typeEnumStart : String := "/*   START typeENUM */"

def typeEnumEnd : String := "/*   STOP typeENUM  */"

/-- Default content of every singleton region (`"/*             TODO              */\n"`). -/
def todoPlaceholder : String := "/*             TODO              */"

/-- The `find the start` loop shared by `_find_custom_includes_in_queue`,
`_find_custom_functions_in_queue` and `_find_type_enums_in_queue`: pop lines
until one strips to the start marker (consuming it), or the queue empties. -/
def scanToMarker (m : String) : List String → List String
  | [] => []
  | l :: ls => if pstrip l = m then ls else scanToMarker m ls

/-- The `Append until we find the end` loop of the same three functions: pop
lines, stopping (and consuming) at a line that strips to the end marker;
return the collected lines and the rest of the queue. -/
def collectToMarker (m : String) : List String → List String × List String
  | [] => ([], [])
  | l :: ls =>
    if pstrip l = m then ([], ls)
    else
      let r := collectToMarker m ls
      (l :: r.1, r.2)

/-- `Scraper._find_custom_includes_in_queue`. -/
def findCustomIncludesInQueue (lines : List String) : List String × List String :=
  collectToMarker includesEnd (scanToMarker includesStart lines)

/-- `Scraper._find_custom_functions_in_queue`. -/
def findCustomFunctionsInQueue (lines : List String) : List String × List String :=
  collectToMarker functionsEnd (scanToMarker functionsStart lines)

/-- `H_Scraper._find_type_enums_in_queue`. -/
def findTypeEnumsInQueue (lines : List String) : List String × List String :=
  collectToMarker typeEnumEnd (scanToMarker typeEnumStart lines)

/-! Per-function custom bodies (`C_Scraper`). -/

/-- The indicator line from `C_Scraper._get_custom_body_pieces` (73 dashes). -/
def indicator : String :=
  "* +-------------------------------------------------------------------------+"

/-- Literal part of the compiled start regex `\* \|START CUSTOM FUNCTION (.+) BODY`. -/
def startLit : List Char := "* |START CUSTOM FUNCTION ".data

/-- Literal part of the compiled stop regex `\* \|STOP CUSTOM FUNCTION (.+) BODY`. -/
def stopLit : List Char := "* |STOP CUSTOM FUNCTION ".data

/-- The literal ` BODY` that follows the `(.+)` capture group. -/
def bodyLit : List Char := " BODY".data

/-- Greedy backtracking for `(.+) BODY`: the largest position `i` with
`1 ≤ i ≤ n` at which ` BODY` occurs in `post`, scanning from the end as the
greedy engine does.  `i ≥ 1` because `(.+)` must consume at least one
character. -/
def greedyAux (post : List Char) : Nat → Option Nat
  | 0 => none
  | i + 1 => if bodyLit.isPrefixOf (post.drop (i + 1)) then some (i + 1) else greedyAux post i

/-- The text captured by a greedy `(.+)` followed by ` BODY` in `post`
(`none` when the pattern cannot match). -/
def greedyGroup (post : List Char) : Option (List Char) :=
  (greedyAux post post.length).map post.take

/-- `re.search` of the start regex on a stripped line: the match may begin at
any position, so scan left to right for the literal prefix and extract the
greedy group after it. -/
def reSearchStart : List Char → Option String
  | [] => none
  | c :: rest =>
    if startLit.isPrefixOf (c :: rest) then
      match greedyGroup ((c :: rest).drop startLit.length) with
      | some g => some ⟨g⟩
      | none => reSearchStart rest
    else reSearchStart rest

/-- `re.match` of the stop regex on a stripped line: the literal must occur at
position 0 and a greedy group must exist after it (the match is not anchored
at the end, and the captured name is NOT compared with the currently open
function). -/
def reMatchStop (s : List Char) : Bool :=
  stopLit.isPrefixOf s && (greedyGroup (s.drop stopLit.length)).isSome

/-- The `func_bods` dictionary: insertion-ordered map from function base name
to the list of captured lines. -/
abbrev FuncDict := List (String × List String)

/-- Lookup of the entry for key `k`. -/
def dictFind? (d : FuncDict) (k : String) : Option (String × List String) :=
  d.find? (fun e => e.1 == k)

/-- In-place update of the value stored under `k` (other entries and the
entry order are untouched). -/
def mapEntry (d : FuncDict) (k : String) (g : List String → List String) : FuncDict :=
  d.map (fun e => if e.1 == k then (e.1, g e.2) else e)

/-- Python `func_bods.get(k)` / `func_bods[k]` lookup. -/
def dictGet (d : FuncDict) (k : String) : Option (List String) :=
  (dictFind? d k).map (fun e => e.2)

/-- `if not func in func_bods: func_bods[func] = []` followed by
`func_bods[func].append(line)`. -/
def dictAppend (d : FuncDict) (k : String) (v : String) : FuncDict :=
  if (dictFind? d k).isSome then mapEntry d k (fun l => l ++ [v])
  else d ++ [(k, [v])]

/-- `func_bods[func].pop()`: `none` models the Python `KeyError` (missing key)
or `IndexError` (empty list) that would propagate. -/
def dictPopLast (d : FuncDict) (k : String) : Option FuncDict :=
  match dictFind? d k with
  | none => none
  | some e =>
    if e.2 = [] then none
    else some (mapEntry d k List.dropLast)

/-- The scan loop of `C_Scraper._find_func_custom_body_in_queue`.  State:
the currently open function name (`none` when outside any region) and the
accumulated dictionary.  Inside a region, a line stripping to the indicator
pops the NEXT line: if that line matches the stop regex the region closes and
the last appended line is popped off the entry; otherwise both lines are
consumed and the region stays open.  Outside a region, a line whose strip
matches the start regex opens the named region. -/
def findFuncCustomBodyLoop : List String → Option String → FuncDict → Except String FuncDict
  | [], _, d => .ok d
  | l :: ls, some f, d =>
    if pstrip l = indicator then
      match ls with
      | [] => .error "IndexError: pop from empty list"
      | l2 :: ls2 =>
        if reMatchStop (pstrip l2).data then
          match dictPopLast d f with
          | some d2 => findFuncCustomBodyLoop ls2 none d2
          | none => .error "KeyError or IndexError: func_bods[func].pop()"
        else findFuncCustomBodyLoop ls2 (some f) d
    else findFuncCustomBodyLoop ls (some f) (dictAppend d f l)
  | l :: ls, none, d =>
    match reSearchStart (pstrip l).data with
    | some g => findFuncCustomBodyLoop ls (some g) d
    | none => findFuncCustomBodyLoop ls none d

/-- `C_Scraper._find_func_custom_body_in_queue`: exhausts the whole queue. -/
def findFuncCustomBodyInQueue (lines : List String) : Except String FuncDict :=
  findFuncCustomBodyLoop lines none []

/-! Write side of the engine. -/

/-- `Scraper.write_custom_includes`: start marker line, captured lines
verbatim, end marker line, blank line. -/
def writeCustomIncludes (includes : List String) : List String :=
  includesStart :: includes ++ [includesEnd, ""]

/-- `Scraper.write_custom_functions`. -/
def writeCustomFunctions (functions : List String) : List String :=
  functionsStart :: functions ++ [functionsEnd, ""]

/-- `H_Scraper.write_custom_type_enums`. -/
def writeCustomTypeEnums (enums : List String) : List String :=
  typeEnumStart :: enums ++ [typeEnumEnd, ""]

/-- Marker text `|START CUSTOM FUNCTION <f> BODY` from `_get_custom_body_pieces`. -/
def startMarkerText (f : String) : String :=
  "|START CUSTOM FUNCTION " ++ f ++ " BODY"

/-- Marker text `|STOP CUSTOM FUNCTION <f> BODY`. -/
def stopMarkerText (f : String) : String :=
  "|STOP CUSTOM FUNCTION " ++ f ++ " BODY"

/-- The five-line comment fence of `_make_custom_body_markers`
(template `"\t/*\n\t {0}\n\t * {1}\n\t {0}\n\t */\n"`). -/
def bodyFence (marker : String) : List String :=
  ["\t/*", "\t " ++ indicator, "\t * " ++ marker, "\t " ++ indicator, "\t */"]

/-- `C_Scraper.write_custom_body`: start fence, the lines captured under the
function's base name (nothing when no entry exists), stop fence. -/
def writeCustomBody (funcBods : FuncDict) (f : String) : List String :=
  bodyFence (startMarkerText f) ++ (dictGet funcBods f).getD [] ++ bodyFence (stopMarkerText f)

/-- Result of constructing a `C_Scraper`. -/
structure CScraperState where
  includes : List String
  functions : List String
  funcBods : FuncDict
deriving DecidableEq, Repr

/-- Result of constructing an `H_Scraper`. -/
structure HScraperState where
  includes : List String
  typeEnums : List String
  functions : List String
deriving DecidableEq, Repr

/-- A scrape source: `none` models constructing with no source file
(`filename is None`); `some none` models a path that cannot be opened
(`IOError`); `some (some ls)` models a readable file with lines `ls`. -/
abbrev ScrapeSource := Option (Option (List String))

/-- `C_Scraper.__init__`: with no source the three regions keep their
placeholder defaults; otherwise the file (empty on `IOError`, which is caught
and logged) is scanned for includes, then functions, then per-function
bodies. -/
def cScraperInit : ScrapeSource → Except String CScraperState
  | none => .ok ⟨[todoPlaceholder], [todoPlaceholder], []⟩
  | some file =>
    let c := file.getD []
    let r1 := findCustomIncludesInQueue c
    let r2 := findCustomFunctionsInQueue r1.2
    match findFuncCustomBodyInQueue r2.2 with
    | .ok funcBods => .ok ⟨r1.1, r2.1, funcBods⟩
    | .error e => .error e

/-- `H_Scraper.__init__`: with no source the three regions keep their
placeholder defaults; on `IOError` the handler itself evaluates the undefined
name `fd` and raises `NameError`; otherwise scans includes, then type enums,
then functions. -/
def hScraperInit : ScrapeSource → Except String HScraperState
  | none => .ok ⟨[todoPlaceholder], [todoPlaceholder], [todoPlaceholder]⟩
  | some none => .error "NameError: name fd is not defined"
  | some (some ls) =>
    let r1 := findCustomIncludesInQueue ls
    let r2 := findTypeEnumsInQueue r1.2
    let r3 := findCustomFunctionsInQueue r2.2
    .ok ⟨r1.1, r2.1, r3.1⟩

/-! Shapes of files produced by the write side of the engine, used to state
round-trip properties.  A written C file interleaves regenerated boilerplate
with the includes region, the functions region and one body region per
generated function, in the order `create_impl_c.Writer.write` emits them; a
written H file interleaves boilerplate with the includes, type-enum and
functions regions in the order `create_impl_h.Writer.write` emits them. -/

/-- One per-function section of a written C file: regenerated boilerplate
followed by the marker-fenced custom body for one generated function. -/
structure BodyPart where
  boiler : List String
  fname : String
  body : List String

/-- The lines emitted for one custom body region: start fence, content lines,
stop fence (what `write_custom_body` writes when the captured entry is
`body`). -/
def bodyBlock (f : String) (body : List String) : List String :=
  bodyFence (startMarkerText f) ++ body ++ bodyFence (stopMarkerText f)

/-- A complete file as written by the C flavor: boilerplate, includes region,
boilerplate, functions region, the per-function sections, trailing
boilerplate. -/
def cWrittenFile (b0 incs b1 fns : List String) (parts : List BodyPart)
    (b2 : List String) : List String :=
  b0 ++ writeCustomIncludes incs ++ b1 ++ writeCustomFunctions fns
    ++ (parts.map (fun p => p.boiler ++ bodyBlock p.fname p.body)).flatten ++ b2

/-- A complete file as written by the H flavor: boilerplate, includes region,
boilerplate, type-enum region, boilerplate, functions region, trailing
boilerplate. -/
def hWrittenFile (b0 incs b1 enums b2 fns b3 : List String) : List String :=
  b0 ++ writeCustomIncludes incs ++ b1 ++ writeCustomTypeEnums enums
    ++ b2 ++ writeCustomFunctions fns ++ b3

/-- Net effect on the dictionary of scanning one complete body region for `f`
with content `body`: the entry for `f` is extended by `body` (created when
absent). -/
def dictExtend (d : FuncDict) (k : String) (body : List String) : FuncDict :=
  if (dictFind? d k).isSome then mapEntry d k (fun l => l ++ body)
  else d ++ [(k, body)]

/-- The dictionary produced by scanning the per-function sections of a written
C file in order. -/
def partsDict (parts : List BodyPart) : FuncDict :=
  parts.foldl (fun d p => dictExtend d p.fname p.body) []

end Roundtrip

namespace Tools

/-! Embedding of the generation loop of `camp.tools.camp.run` (lines 146-168).
Each generator either writes successfully, raises `IOError` when opening its
destination, or raises some other exception while formatting. -/

/-- Outcome of one generator attempt inside the loop. -/
inductive GenOutcome
  | ok
  | ioError
  | formatError
deriving DecidableEq

/-- What happened by the time the loop finished or aborted. -/
structure LoopResult where
  attempted : Nat
  failures : Nat
  aborted : Bool
deriving DecidableEq

/-- The `for gen in generators` loop: on success continue; on `IOError` log,
count the failure and `continue`; on any other exception log, count the
failure and then `raise`, which aborts the loop (and `run` itself). -/
def genLoop : List GenOutcome → LoopResult
  | [] => ⟨0, 0, false⟩
  | .ok :: rest =>
    let r := genLoop rest
    ⟨r.attempted + 1, r.failures, r.aborted⟩
  | .ioError :: rest =>
    let r := genLoop rest
    ⟨r.attempted + 1, r.failures + 1, r.aborted⟩
  | .formatError :: _ => ⟨1, 1, true⟩

/-- The value returned by `run` after the loop: `none` when the re-raised
exception propagates out of `run` (no exit code is returned), otherwise
`2 if failures else 0`. -/
def runExitCode (gens : List GenOutcome) : Option Nat :=
  let r := genLoop gens
  if r.aborted then none else some (if r.failures ≠ 0 then 2 else 0)

/-- Number of `IOError` outcomes in a run. -/
def countIoErrors (gens : List GenOutcome) : Nat :=
  (gens.filter (fun g => g = .ioError)).length

end Tools

namespace Settings

/-! Embedding of the collection-kind registry `campsettings.py`. -/

/-- The collection kinds (area enumerations 0-13; `lit`, `rpt`, `tbl` are the
three internal-only aliases). -/
inductive Coll
  | const
  | ctrl
  | edd
  | mac
  | op
  | rptt
  | sbr
  | tblt
  | tbr
  | var
  | meta
  | lit
  | rpt
  | tbl
deriving DecidableEq

/-- `ari_type_enum`: the single-hex-digit ARI type tag. -/
def ariTypeEnum : Coll → String
  | .const => "0"
  | .ctrl => "1"
  | .edd => "2"
  | .mac => "4"
  | .op => "5"
  | .rptt => "7"
  | .sbr => "8"
  | .tblt => "a"
  | .tbr => "b"
  | .var => "c"
  | .meta => "0"
  | .lit => "3"
  | .rpt => "6"
  | .tbl => "9"

/-- `int(cs.ari_type_enum(obj_type), 16)` rendered back in decimal, as used by
`create_insert_obj_metadata_template`. -/
def ariTypeDec : Coll → String
  | .const => "0"
  | .ctrl => "1"
  | .edd => "2"
  | .mac => "4"
  | .op => "5"
  | .rptt => "7"
  | .sbr => "8"
  | .tblt => "10"
  | .tbr => "11"
  | .var => "12"
  | .meta => "0"
  | .lit => "3"
  | .rpt => "6"
  | .tbl => "9"

/-- `get_sname`.  The entries for `lit` and `rpt` have no `sname` key; Python
would raise `KeyError` there (no embedded code path reaches them). -/
def getSname : Coll → String
  | .const => "cnst"
  | .ctrl => "ctrl"
  | .edd => "edd"
  | .mac => "mac"
  | .op => "op"
  | .rptt => "rpttpl"
  | .sbr => "sbr"
  | .tblt => "tblt"
  | .tbr => "tbr"
  | .var => "var"
  | .meta => "meta"
  | .lit => "KeyError: sname"
  | .rpt => "KeyError: sname"
  | .tbl => "tbl"

/-- `get_lname`.  The entries for `lit`, `rpt` and `tbl` have no `lname` key;
Python would raise `KeyError` there (no embedded code path reaches them). -/
def getLname : Coll → String
  | .const => "Const"
  | .ctrl => "Ctrl"
  | .edd => "Edd"
  | .mac => "Mac"
  | .op => "Oper"
  | .rptt => "Rptt"
  | .sbr => "Sbr"
  | .tblt => "Tblt"
  | .tbr => "Tbr"
  | .var => "Var"
  | .meta => "Mdat"
  | .lit => "KeyError: lname"
  | .rpt => "KeyError: lname"
  | .tbl => "KeyError: lname"

/-- The `adm_idx` field of the registry. -/
def admIdxName : Coll → String
  | .const => "Const"
  | .ctrl => "Ctrl"
  | .edd => "Edd"
  | .mac => "Mac"
  | .op => "Oper"
  | .rptt => "Rptt"
  | .sbr => "Sbr"
  | .tblt => "Tblt"
  | .tbr => "Tbr"
  | .var => "Var"
  | .meta => "Meta"
  | .lit => "KeyError: adm_idx"
  | .rpt => "KeyError: adm_idx"
  | .tbl => "KeyError: adm_idx"

/-- `get_adm_idx`: `"ADM_" + adm_idx.upper() + "_IDX"`. -/
def getAdmIdx (c : Coll) : String :=
  "ADM_" ++ pyUpper (admIdxName c) ++ "_IDX"

end Settings

/-! Python string primitives used by the naming layer and the writers. -/

/-- Python `str.replace(pat, rep)`: leftmost, non-overlapping.  The fuel
argument only serves termination (each step consumes at least one input
character, so `cs.length` fuel is always enough). -/
def replaceLAux (pat rep : List Char) : Nat → List Char → List Char
  | 0, cs => cs
  | _ + 1, [] => []
  | fuel + 1, c :: rest =>
    if pat ≠ [] ∧ pat.isPrefixOf (c :: rest) then
      rep ++ replaceLAux pat rep fuel ((c :: rest).drop pat.length)
    else c :: replaceLAux pat rep fuel rest

/-- Python `str.replace(pat, rep)` on the characters of a string. -/
def replaceL (pat rep cs : List Char) : List Char :=
  replaceLAux pat rep cs.length cs

/-- Python `str.replace` on strings. -/
def pyReplace (s pat rep : String) : String :=
  ⟨replaceL pat.data rep.data s.data⟩

/-- Python `str.split(sep)[0]` for a one-character separator: the text before
the first occurrence (the whole string when absent). -/
def pyTakeUntil (sep : Char) (s : String) : String :=
  ⟨s.data.takeWhile (fun c => c ≠ sep)⟩

/-- Python `str.split(sep, 1)[1]` for a one-character separator: the text
after the first occurrence; `none` models the `IndexError` when the separator
is absent. -/
def pySplitOnceSnd (sep : Char) (s : String) : Option String :=
  if s.data.contains sep then some ⟨(s.data.dropWhile (fun c => c ≠ sep)).drop 1⟩
  else none

/-- Python `str(x)` of an optional string, where `None` prints as `"None"`
(as happens when a `None` description is interpolated by `str.format`). -/
def pyOptStr : Option String → String
  | none => "None"
  | some s => s

/-- Python `format(n, '#04x')`: `0x` followed by lowercase hex digits,
zero-padded so the whole token is at least 4 characters wide. -/
def pyHashHex (n : Nat) : String :=
  let ds := Nat.toDigits 16 n
  let pad := if ds.length < 2 then List.replicate (2 - ds.length) '0' else []
  "0x" ++ (⟨pad ++ ds⟩ : String)

namespace Util

/-! Embedding of the naming helpers in `camputil.py`. -/

/-- `get_g_var_idx`. -/
def getGVarIdx (ns : String) : String :=
  "g_" ++ pyReplace (pyLower ns) "/" "_" ++ "_idx"

/-- `make_ari_name_from_str`: uppercase underscore-joined symbol embedding the
kind short code. -/
def makeAriNameFromStr (name : String) (coll : Settings.Coll) (iName : String) : String :=
  pyUpper (pyReplace name "/" "_") ++ "_" ++ pyUpper (Settings.getSname coll)
    ++ "_" ++ pyUpper iName

/-- `make_amp_type_name_from_str`. -/
def makeAmpTypeNameFromStr (t : String) : String :=
  "AMP_TYPE_" ++ pyUpper t

/-- `make_enum_name_from_str`. -/
def makeEnumNameFromStr (name : String) : String :=
  "ADM_ENUM_" ++ pyUpper name

end Util

namespace Adm

/-! Model of the ADM object graph (the external, already-validated input),
restricted to the fields the embedded generators read. -/

/-- A formal parameter specification entry. -/
structure AdmParm where
  name : String
  type : String
  position : Nat
deriving DecidableEq

/-- A constant or metadata object (both feed the same stored procedures). -/
structure ConstObj where
  name : String
  description : Option String
  type : String
  value : String
  enum : Nat
deriving DecidableEq

/-- An externally-defined-data object. -/
structure EddObj where
  name : String
  description : Option String
  type : String
  parmspec : Option (List AdmParm)
  enum : Nat
deriving DecidableEq

/-- One input type of an operator. -/
structure InType where
  type : String
  position : Nat
deriving DecidableEq

/-- An operator object. -/
structure OperObj where
  name : String
  description : Option String
  result_type : String
  in_type : List InType
  enum : Nat
deriving DecidableEq

/-- One entry of a variable initializer expression: a reference to another
object, with its namespace and dotted name. -/
structure PostfixItem where
  ns : String
  nm : String
  position : Nat
deriving DecidableEq

/-- A variable initializer (`initializer.postfix.items`). -/
structure Initializer where
  type : String
  postfix_items : List PostfixItem
deriving DecidableEq

/-- A variable object. -/
structure VarObj where
  name : String
  description : Option String
  type : String
  initializer : Option Initializer
  enum : Nat
deriving DecidableEq

/-- One column of a table template. -/
structure ColObj where
  name : String
  type : String
  position : Nat
deriving DecidableEq

/-- A table template object. -/
structure TbltObj where
  name : String
  description : Option String
  columns : List ColObj
  enum : Nat
deriving DecidableEq

/-- A report template, modelled for templates with an empty `definition`
list: per-definition handling (`handle_report_fp_ap`) consults the external
ace database (`ace.util.find_ident`) and is outside this embedding. -/
structure RpttObj where
  name : String
  description : Option String
  parmspec : Option (List AdmParm)
  enum : Nat
deriving DecidableEq

/-- A control object. -/
structure CtrlObj where
  name : String
  description : Option String
  parmspec : Option (List AdmParm)
  enum : Nat
deriving DecidableEq

/-- A macro object. -/
structure MacObj where
  name : String
  description : Option String
  parmspec : Option (List AdmParm)
  action_items : List PostfixItem
  enum : Nat
deriving DecidableEq

/-- The ADM object graph consumed by the writers. -/
structure AdmModel where
  norm_name : String
  norm_namespace : String
  adm_ns : String
  enum : Nat
  mdat : List ConstObj
  const : List ConstObj
  edd : List EddObj
  oper : List OperObj
  var : List VarObj
  tblt : List TbltObj
  rptt : List RpttObj
  ctrl : List CtrlObj
  mac : List MacObj
deriving DecidableEq

end Adm

namespace Sql

open Adm Settings Util

/-! Embedding of the SQL writer `create_sql.py` for the `pgsql` dialect (the
dialect the orchestrator passes; `mysql` differs only in the `@` variable
prefix and the `body_pre`/`body_post` wrapper lines). -/

/-- `escape_description_sql`. -/
def escapeDescriptionSql : Option String → Option String
  | none => none
  | some v => some (pyReplace v "\x27" "\x27\x27")

/-- The per-run sets of defined and used SQL variable names
(`_vars_def` / `_vars_use`). -/
structure SqlVars where
  vars_def : List String
  vars_use : List String
deriving DecidableEq

/-- The fresh state of `Writer.__init__` before any variable is recorded. -/
def emptyVars : SqlVars := ⟨[], []⟩

/-- Python `set.add`: record a name once. -/
def insertVar (n : String) (l : List String) : List String :=
  if n ∈ l then l else n :: l

/-- `Writer._var_name` (pgsql prefix is empty; the text name is casefolded).
`define` is `some true` for a defining use, `some false` for a reading use,
`none` for an external name recorded in neither set. -/
def varName (st : SqlVars) (name : String) (define : Option Bool) : SqlVars × String :=
  let n := pyLower name
  match define with
  | none => (st, n)
  | some true => ({ st with vars_def := insertVar n st.vars_def }, n)
  | some false => ({ st with vars_use := insertVar n st.vars_use }, n)

/-- `Writer.make_sql_ids` (the over-64-characters check only logs an error and
changes nothing). -/
def makeSqlIds (st : SqlVars) (ari : String) (define : Option Bool) :
    SqlVars × (String × String × String) :=
  let r1 := varName st ari define
  let r2 := varName r1.1 (ari ++ "_did") define
  let r3 := varName r2.1 (ari ++ "_aid") define
  (r3.1, (r1.2, r2.2, r3.2))

/-- `Writer._make_ari`. -/
def makeAri (adm : AdmModel) (coll : Coll) (objName : String) : String :=
  pyLower (makeAriNameFromStr adm.norm_namespace coll objName)

/-- `Writer.make_fp_id`. -/
def makeFpId (objId : String) : String := objId ++ "_fp"

/-- The text name of the `_sql_ns` variable defined in `Writer.__init__`. -/
def sqlNsName (adm : AdmModel) : String :=
  pyLower (pyTakeUntil '/' adm.norm_namespace) ++ "_namespace_id"

/-- One `SP__insert_obj_metadata` call (the template from
`create_insert_obj_metadata_template`, applied to an object). -/
def insertObjMetadataLine (coll : Coll) (sqlNs name objId : String) : String :=
  "CALL SP__insert_obj_metadata(" ++ ariTypeDec coll ++ ", \x27" ++ name ++ "\x27, "
    ++ sqlNs ++ ", " ++ objId ++ ");"

/-- `Writer.write_setup`; `today` stands for `datetime.datetime.now().date()`. -/
def writeSetup (adm : AdmModel) (today : String) : List String :=
  ["-- -------------------------------------------------------------------",
   "--",
   "-- File Name: adm_" ++ adm.norm_name ++ ".sql",
   "--",
   "-- Description: TODO",
   "--",
   "-- Notes: TODO",
   "--",
   "-- Assumptions: TODO",
   "--",
   "-- Modification History:",
   "-- YYYY-MM-DD    AUTHOR          DESCRIPTION",
   "-- ----------    --------------  ------------------------------------",
   "-- " ++ today ++ "    AUTO            Auto-generated SQL file",
   "--",
   "-- -------------------------------------------------------------------",
   "",
   "-- ADM: \x27" ++ adm.norm_namespace ++ "\x27",
   ""]

/-- The set of referenced-but-never-defined variable names checked at
finalization. -/
def undefVars (st : SqlVars) : List String :=
  st.vars_use.filter (fun n => decide (n ∉ st.vars_def))

/-- `Writer.body_pre` for `pgsql`: raises (`RuntimeError`, carrying the set of
undefined names) iff some used variable was never defined; otherwise emits the
`DO` header and one `DECLARE` per defined variable in sorted order. -/
def bodyPre (adm : AdmModel) (st : SqlVars) : Except (List String) (List String) :=
  if undefVars st = [] then
    .ok (["DO", "$do$",
          "DECLARE adm_enum INTEGER := " ++ toString adm.enum ++ ";"]
      ++ (sortNames st.vars_def).map (fun n => "DECLARE " ++ n ++ " INTEGER;")
      ++ ["BEGIN", ""])
  else .error (undefVars st)

/-- `Writer.body_post` for `pgsql`. -/
def bodyPost : List String := ["", "END", "$do$"]

/-- `admset.get_child(adm, models.Mdat, nm)`: lookup of a metadata object by
name. -/
def getMdatChild (adm : AdmModel) (nm : String) : Option ConstObj :=
  adm.mdat.find? (fun o => o.name == nm)

/-- `val_or_none(obj)` reading the default `value` attribute. -/
def valOrNoneValue (o : Option ConstObj) : String :=
  match o with
  | none => ""
  | some x => x.value

/-- `val_or_none(obj, 'description')`: the empty string when the object is
missing, otherwise its description attribute (which may be Python `None`). -/
def valOrNoneDesc (o : Option ConstObj) : Option String :=
  match o with
  | none => some ""
  | some x => x.description

/-- `Writer.write_metadata_function` (the `adm_enum` interpolation uses
`_var_name` with `define=None`, which records nothing). -/
def writeMetadataFunction (adm : AdmModel) (sqlNs : String) : List String :=
  let name := valOrNoneValue (getMdatChild adm "name")
  let ns := valOrNoneValue (getMdatChild adm "namespace")
  let version := valOrNoneValue (getMdatChild adm "version")
  let org := valOrNoneValue (getMdatChild adm "organization")
  let desc := pyOptStr (escapeDescriptionSql (valOrNoneDesc (getMdatChild adm "namespace")))
  ["",
   "CALL SP__insert_adm_defined_namespace(\x27" ++ org ++ "\x27, \x27" ++ ns ++ "\x27, \x27"
     ++ version ++ "\x27, \x27" ++ name ++ "\x27, adm_enum, NULL, \x27" ++ desc ++ "\x27, "
     ++ sqlNs ++ ");"]

/-- One `SP__insert_const_actual_definition` call. -/
def constActualLine (constId : String) (desc : Option String) (type value actId : String) :
    String :=
  "CALL SP__insert_const_actual_definition(" ++ constId ++ ", \x27" ++ pyOptStr desc
    ++ "\x27, \x27" ++ type ++ "\x27, \x27" ++ value ++ "\x27, " ++ actId ++ ");"

/-- `Writer.write_gen_const_functions`: shared loop for CONST and META
objects. -/
def writeGenConstFunctions (adm : AdmModel) (sqlNs : String) (st : SqlVars)
    (objects : List ConstObj) (coll : Coll) : SqlVars × List String :=
  objects.foldl
    (fun acc obj =>
      let desc := escapeDescriptionSql obj.description
      let r := makeSqlIds acc.1 (makeAri adm coll obj.name) (some true)
      (r.1, acc.2
        ++ ["", insertObjMetadataLine coll sqlNs obj.name r.2.1,
            constActualLine r.2.1 desc obj.type obj.value r.2.2.2]))
    (st, [])

/-- `Writer.write_const_functions`. -/
def writeConstFunctions (adm : AdmModel) (sqlNs : String) (st : SqlVars) :
    SqlVars × List String :=
  let r := writeGenConstFunctions adm sqlNs st adm.const .const
  (r.1, ["", "", "-- CONST"] ++ r.2)

/-- `Writer.write_mdat_functions`. -/
def writeMdatFunctions (adm : AdmModel) (sqlNs : String) (st : SqlVars) :
    SqlVars × List String :=
  let r := writeGenConstFunctions adm sqlNs st adm.mdat .meta
  (r.1, ["", "", "-- MDAT"] ++ r.2)

/-- State effect of `create_insert_formal_parmspec_templates`: building the
entry template defines `r_fp_ent`. -/
def defineRFpEnt (st : SqlVars) : SqlVars :=
  (varName st "r_fp_ent" (some true)).1

/-- One applied `SP__insert_formal_parmspec` call; `descBefore`/`descAfter`
come from the caller-chosen description template around the object name. -/
def formalParmspecLine (descBefore descAfter : String) (n : Nat) (name fpId : String) :
    String :=
  "CALL SP__insert_formal_parmspec(" ++ toString n ++ ", \x27" ++ descBefore ++ name
    ++ descAfter ++ "\x27, " ++ fpId ++ ");"

/-- One applied `SP__insert_formal_parmspec_entry` call. -/
def parmspecEntryLine (fpId : String) (pos : Nat) (pname ptype : String) : String :=
  "CALL SP__insert_formal_parmspec_entry(" ++ fpId ++ ", " ++ toString pos ++ ", \x27"
    ++ pname ++ "\x27, \x27" ++ ptype ++ "\x27, null, r_fp_ent);"

/-- `Writer.write_edd_functions`. -/
def writeEddFunctions (adm : AdmModel) (sqlNs : String) (st : SqlVars) :
    SqlVars × List String :=
  let st := defineRFpEnt st
  let r := adm.edd.foldl
    (fun acc edd =>
      let ids := makeSqlIds acc.1 (makeAri adm .edd edd.name) (some true)
      let objId := ids.2.1
      let defId := ids.2.2.1
      let actId := ids.2.2.2
      let fpId := makeFpId objId
      let desc := escapeDescriptionSql edd.description
      let parmspec := match edd.parmspec with | none => [] | some l => l
      let base := acc.2 ++ ["", insertObjMetadataLine .edd sqlNs edd.name objId]
      if parmspec.isEmpty then
        let st2 := (varName ids.1 actId (some true)).1
        (st2, base
          ++ ["CALL SP__insert_edd_formal_definition(" ++ objId ++ ", \x27" ++ pyOptStr desc
                ++ "\x27, NULL, \x27" ++ edd.type ++ "\x27, " ++ defId ++ ");",
              "CALL SP__insert_edd_actual_definition(" ++ objId
                ++ ", \x27The singleton value for " ++ edd.name ++ "\x27, NULL, "
                ++ actId ++ ");"])
      else
        let st2 := (varName ids.1 fpId (some true)).1
        (st2, base
          ++ [formalParmspecLine "parms for " "" parmspec.length edd.name fpId]
          ++ parmspec.map (fun p => parmspecEntryLine fpId (p.position + 1) p.name p.type)
          ++ ["CALL SP__insert_edd_formal_definition(" ++ objId ++ ", \x27" ++ pyOptStr desc
                ++ "\x27, " ++ fpId ++ ", \x27" ++ edd.type ++ "\x27, " ++ defId ++ ");"]))
    (st, [])
  (r.1, ["", "", "-- EDD", ""] ++ r.2)

/-- State effect of `create_insert_tnvc_templates`: defines the
`<kind>_tnvc_id` variable and preallocates `tnvc_entry1..n` (the
`tnvc_entry` interpolation uses `define=None`). -/
def tnvcTemplatesState (st : SqlVars) (objType : Coll) (numEntries : Nat) : SqlVars :=
  let st := (varName st (pyLower (getSname objType) ++ "_tnvc_id") (some true)).1
  (List.range numEntries).foldl
    (fun s idx => (varName s ("tnvc_entry" ++ toString (idx + 1)) (some true)).1) st

/-- `Writer.write_oper_functions` (the actual-definition template built before
the loop defines `op_tnvc_id`). -/
def writeOperFunctions (adm : AdmModel) (sqlNs : String) (st : SqlVars) :
    SqlVars × List String :=
  let st := (varName st "op_tnvc_id" (some true)).1
  let r := adm.oper.foldl
    (fun acc oper =>
      let ids := makeSqlIds acc.1 (makeAri adm .op oper.name) (some true)
      let st := tnvcTemplatesState ids.1 .op oper.in_type.length
      let objId := ids.2.1
      let actId := ids.2.2.2
      let desc := escapeDescriptionSql oper.description
      let entryLines := oper.in_type.map (fun it =>
        let t := pyLower it.type
        if t = "unk" then
          "CALL SP__insert_tnvc_unk_entry(op_tnvc_id, " ++ toString (it.position + 1)
            ++ ", null, tnvc_entry" ++ toString (it.position + 1) ++ ");"
        else
          "CALL SP__insert_tnvc_" ++ t ++ "_entry(op_tnvc_id, " ++ toString (it.position + 1)
            ++ ", null, null, tnvc_entry" ++ toString (it.position + 1) ++ ");")
      let actualLine := "CALL SP__insert_operator_actual_definition(" ++ objId ++ ", \x27"
        ++ pyOptStr desc ++ "\x27, \x27" ++ oper.result_type ++ "\x27, "
        ++ toString oper.in_type.length ++ ", op_tnvc_id, " ++ actId ++ ");"
      let actualLines :=
        if pyUpper oper.result_type = "UNK" then ["-- " ++ actualLine] else [actualLine]
      (st, acc.2
        ++ ["", insertObjMetadataLine .op sqlNs oper.name objId,
            "CALL SP__insert_tnvc_collection(\x27operands for " ++ oper.name
              ++ "\x27, op_tnvc_id);"]
        ++ entryLines ++ actualLines))
    (st, [])
  (r.1, ["", "", "-- OPER"] ++ r.2)

/-- `Writer.make_definition_ids`.  The error models the Python `IndexError`
when a foreign-namespace reference has no underscore to split on. -/
def makeDefinitionIds (adm : AdmModel) (st : SqlVars) (item : PostfixItem) :
    Except String (SqlVars × (String × String × String × String)) :=
  let name0 := item.nm
  let name1 :=
    if pyStartsWith (pyLower name0) "mdat." then "meta" ++ name0.drop 4
    else if pyStartsWith (pyLower name0) "oper." then "op" ++ name0.drop 4
    else name0
  let name := pyTakeUntil '(' (pyReplace name1 "." "_")
  let ariStr := pyReplace (item.ns ++ "_" ++ name) "/" "_"
  let ids := makeSqlIds st ariStr (some true)
  if item.ns ≠ adm.adm_ns then
    match pySplitOnceSnd '_' name with
    | none => .error "IndexError: list index out of range"
    | some tailName =>
      .ok (ids.1, (ids.2.1, ids.2.2.1, ids.2.2.2,
        ids.2.2.2 ++ " = (select obj_id FROM public.vw_ari_union WHERE obj_name = \x27"
          ++ tailName
          ++ "\x27 and adm_name = (select adm_name from public.vw_namespace where name_string = \x27"
          ++ item.ns ++ "\x27)  and actual = true);"))
  else .ok (ids.1, (ids.2.1, ids.2.2.1, ids.2.2.2, ""))

/-- `Writer.write_var_functions` (the templates built before the loop define
`var_ac_id` three times; a missing initializer would raise
`AttributeError`). -/
def writeVarFunctions (adm : AdmModel) (sqlNs : String) (st : SqlVars) :
    Except String (SqlVars × List String) := do
  let st := (varName st "var_ac_id" (some true)).1
  let st := (varName st "var_ac_id" (some true)).1
  let st := (varName st "var_ac_id" (some true)).1
  let r ← adm.var.foldlM
    (fun (acc : SqlVars × List String) v => do
      let postfix_items ← match v.initializer with
        | none => Except.error "AttributeError: NoneType object has no attribute postfix"
        | some ini => pure ini.postfix_items
      let ids := makeSqlIds acc.1 (makeAri adm .var v.name) (some true)
      let varId := ids.2.1
      let actId := ids.2.2.2
      let desc := escapeDescriptionSql v.description
      let acDesc := "ac for the expression used by " ++ varId
      let head := ["", "-- create ac for expression",
        insertObjMetadataLine .var sqlNs v.name varId,
        "CALL SP__insert_ac_id(" ++ toString postfix_items.length ++ ", \x27" ++ acDesc
          ++ "\x27, var_ac_id);"]
      let inner ← postfix_items.foldlM
        (fun (acc2 : SqlVars × List String) item => do
          let mids ← makeDefinitionIds adm acc2.1 item
          let st2 := (varName mids.1 ("r_ac_entry_id_" ++ toString (item.position + 1))
            (some true)).1
          pure (st2, acc2.2
            ++ [mids.2.2.2.2,
                "CALL SP__insert_ac_actual_entry(var_ac_id, " ++ mids.2.2.2.1 ++ ", "
                  ++ toString (item.position + 1) ++ ", r_ac_entry_id_"
                  ++ toString (item.position + 1) ++ " );"]))
        (ids.1, ([] : List String))
      pure (inner.1, acc.2 ++ head ++ inner.2
        ++ ["CALL SP__insert_variable_definition(" ++ varId ++ ", \x27" ++ pyOptStr desc
              ++ "\x27, 20, var_ac_id, " ++ actId ++ ");"]))
    (st, ([] : List String))
  pure (r.1, ["", "", "-- VAR"] ++ r.2)

/-- `Writer.write_tblt_functions` (the definition template built before the
loop defines `tbl_tnvc_id`). -/
def writeTbltFunctions (adm : AdmModel) (sqlNs : String) (st : SqlVars) :
    SqlVars × List String :=
  let st := (varName st "tbl_tnvc_id" (some true)).1
  let r := adm.tblt.foldl
    (fun acc tblt =>
      let ids := makeSqlIds acc.1 (makeAri adm .tblt tblt.name) (some true)
      let st := tnvcTemplatesState ids.1 .tbl tblt.columns.length
      let tbltId := ids.2.1
      let defId := ids.2.2.1
      let desc := escapeDescriptionSql tblt.description
      let colLines := tblt.columns.map (fun col =>
        "CALL SP__insert_tnvc_" ++ pyLower col.type ++ "_entry(tbl_tnvc_id, "
          ++ toString (col.position + 1) ++ ", \x27" ++ col.name ++ "\x27, null, tnvc_entry"
          ++ toString (col.position + 1) ++ ");")
      (st, acc.2
        ++ ["", insertObjMetadataLine .tblt sqlNs tblt.name tbltId,
            "CALL SP__insert_tnvc_collection(\x27columns for the " ++ tblt.name
              ++ " table\x27, tbl_tnvc_id);"]
        ++ colLines
        ++ ["CALL SP__insert_table_template_actual_definition(" ++ tbltId ++ ", \x27"
              ++ pyOptStr desc ++ "\x27, tbl_tnvc_id, " ++ defId ++ ");"]))
    (st, [])
  (r.1, ["", "", "-- TBLT"] ++ r.2)

/-- `Writer.write_rptt_functions` (templates built before the loop define
`rptt_ac_id` three times; report templates are modelled with an empty
definition list, see `RpttObj`). -/
def writeRpttFunctions (adm : AdmModel) (sqlNs : String) (st : SqlVars) :
    SqlVars × List String :=
  let st := (varName st "rptt_ac_id" (some true)).1
  let st := (varName st "rptt_ac_id" (some true)).1
  let st := (varName st "rptt_ac_id" (some true)).1
  let r := adm.rptt.foldl
    (fun acc rptt =>
      let ids := makeSqlIds acc.1 (makeAri adm .rptt rptt.name) (some true)
      let reportId := ids.2.1
      let reportDefId := ids.2.2.1
      let reportActId := ids.2.2.2
      let desc := escapeDescriptionSql rptt.description
      let parmspec := match rptt.parmspec with | none => [] | some l => l
      let defnLines := ["CALL SP__insert_ac_id(0, \x27ac for report template " ++ rptt.name
        ++ "\x27, rptt_ac_id);"]
      let fp := if parmspec.isEmpty then (ids.1, "null")
        else varName ids.1 "fp_spec_id" (some true)
      let st2 := (varName fp.1 reportDefId (some true)).1
      let tailLines :=
        ["", "CALL SP__insert_report_template_formal_definition(" ++ reportId ++ ", \x27"
            ++ pyOptStr desc ++ "\x27, " ++ fp.2 ++ ", rptt_ac_id, " ++ reportDefId ++ ");"]
        ++ (if parmspec.isEmpty then
              ["", "CALL SP__insert_report_actual_definition(" ++ reportId
                ++ ", null, null, \x27Singleton value for " ++ rptt.name ++ "\x27, "
                ++ reportActId ++ ");"]
            else [])
      (st2, acc.2 ++ ["", insertObjMetadataLine .rptt sqlNs rptt.name reportId]
        ++ defnLines ++ tailLines))
    (st, [])
  (r.1, ["", "", "-- RPTT"] ++ r.2)

/-- `Writer.write_ctrl_functions`. -/
def writeCtrlFunctions (adm : AdmModel) (sqlNs : String) (st : SqlVars) :
    SqlVars × List String :=
  let st := defineRFpEnt st
  let r := adm.ctrl.foldl
    (fun acc ctrl =>
      let ids := makeSqlIds acc.1 (makeAri adm .ctrl ctrl.name) (some true)
      let ctrlId := ids.2.1
      let ctrlDefId := ids.2.2.1
      let desc := escapeDescriptionSql ctrl.description
      let parmspec := match ctrl.parmspec with | none => [] | some l => l
      let fp := if parmspec.isEmpty then (ids.1, "null")
        else varName ids.1 "fp_spec_id" (some true)
      let parmLines :=
        if parmspec.isEmpty then []
        else [formalParmspecLine "parms for the " " control" parmspec.length ctrl.name fp.2]
          ++ parmspec.map (fun p => parmspecEntryLine fp.2 (p.position + 1) p.name p.type)
      (fp.1, acc.2
        ++ ["", insertObjMetadataLine .ctrl sqlNs ctrl.name ctrlId]
        ++ parmLines
        ++ ["CALL SP__insert_control_formal_definition(" ++ ctrlId ++ " , \x27"
              ++ pyOptStr desc ++ "\x27, " ++ fp.2 ++ ", " ++ ctrlDefId ++ ");"]))
    (st, [])
  (r.1, ["", "", "-- CTRL"] ++ r.2)

/-- `Writer.write_mac_functions`: the templates built before the loop define
`r_fp_ent`, `mac_ac_id` (three times) and `r_ac_entry_id`; the first statement
of the per-macro loop body then evaluates the unbound name `m`
(`self._make_ari(cs.MACRO, m)`), so any non-empty macro list raises
`NameError` before a single macro statement is produced. -/
def writeMacFunctions (adm : AdmModel) (sqlNs : String) (st : SqlVars) :
    Except String (SqlVars × List String) :=
  let st := defineRFpEnt st
  let st := (varName st "mac_ac_id" (some true)).1
  let st := (varName st "mac_ac_id" (some true)).1
  let st := (varName st "r_ac_entry_id" (some true)).1
  let st := (varName st "mac_ac_id" (some true)).1
  match adm.mac with
  | [] => .ok (st, ["", "", "-- MAC"])
  | _ :: _ => .error "NameError: name \x27m\x27 is not defined"

/-- `create_sql.Writer.write` for `pgsql`, including the `__init__` definition
of the namespace variable.  Returns the ordered lines of the artifact, or the
first exception raised. -/
def sqlWrite (adm : AdmModel) (today : String) : Except String (List String) := do
  let r0 := varName emptyVars (sqlNsName adm) (some true)
  let st0 := r0.1
  let sqlNs := r0.2
  let head := writeSetup adm today
  let mdLines := writeMetadataFunction adm sqlNs
  let r1 := writeMdatFunctions adm sqlNs st0
  let r2 := writeEddFunctions adm sqlNs r1.1
  let r3 := writeOperFunctions adm sqlNs r2.1
  let r4 ← writeVarFunctions adm sqlNs r3.1
  let r5 := writeTbltFunctions adm sqlNs r4.1
  let r6 := writeRpttFunctions adm sqlNs r5.1
  let r7 := writeCtrlFunctions adm sqlNs r6.1
  let r8 := writeConstFunctions adm sqlNs r7.1
  let r9 ← writeMacFunctions adm sqlNs r8.1
  match bodyPre adm r9.1 with
  | .error undef =>
    .error ("RuntimeError: There are " ++ toString undef.length
      ++ " undefined variables in this ADM SQL")
  | .ok preLines =>
    .ok (head ++ preLines ++ mdLines ++ r1.2 ++ r2.2 ++ r3.2 ++ r4.2 ++ r5.2
      ++ r6.2 ++ r7.2 ++ r8.2 ++ r9.2 ++ bodyPost)

end Sql

namespace Campch

open Adm Settings Util

/-! Embedding of the shared writer helpers in `campch.py` that the shared
header writer and the init-function generator use. -/

/-- `_write_file_header` with modifier `"header"` (via `write_h_file_header`);
`today` stands for `datetime.datetime.now().date()`. -/
def writeHFileHeader (fname today : String) : String :=
  "/" ++ String.mk (List.replicate 76 '*') ++ "\n **\n ** File Name: " ++ fname
    ++ "\n **\n ** Description: TODO\n **\n ** Notes: TODO\n **\n ** Assumptions: TODO\n **"
    ++ "\n ** Modification History:\n **  YYYY-MM-DD  AUTHOR           DESCRIPTION"
    ++ "\n **  ----------  --------------   --------------------------------------------"
    ++ "\n **  " ++ today ++ "  AUTO             Auto-generated header file\n **\n "
    ++ String.mk (List.replicate 76 '*') ++ "/\n\n"

/-- `make_includes`. -/
def makeIncludes (files : List String) : String :=
  String.join (files.map (fun f => "\n#include \"" ++ f ++ "\"")) ++ "\n\n"

/-- `make_cplusplus_open`. -/
def makeCplusplusOpen : String :=
  "#ifdef __cplusplus\nextern \"C\" \x7b\n#endif\n\n"

/-- `make_cplusplus_close`. -/
def makeCplusplusClose : String :=
  "\n#ifdef __cplusplus\n\x7d\n#endif\n"

/-- `make_formatted_comment_header` (width 93 between the `+` ends; the name
is centered with truncating integer division, and an extra space is added
when its length is even). -/
def makeFormattedCommentHeader (name : String) (copen cclose : Bool) : String :=
  let envelopeStr := "\n * +" ++ String.mk (List.replicate 93 '-') ++ "+\n"
  let ws := String.mk (List.replicate ((93 - name.length) / 2) ' ')
  let content0 := " * |" ++ ws ++ name ++ ws
  let content1 := if name.length % 2 = 0 then content0 ++ " " else content0
  let out := envelopeStr ++ content1 ++ "+" ++ envelopeStr
  let out1 := if copen then "\n/*" ++ out else out
  if cclose then out1 ++ " */\n" else out1

end Campch

namespace GenH

open Adm Settings Util Campch

/-! Embedding of the shared header writer `create_gen_h.py`. -/

/-- Python truthiness of an optional string (`None` and `''` are falsy). -/
def pyTruthy (o : Option String) : Bool :=
  match o with
  | none => false
  | some s => s ≠ ""

/-- `str(item) if item is not None else ''` for a table cell. -/
def cellStr (o : Option String) : String := o.getD ""

/-- `'%-N.Ns' % s`: truncate to `n` characters, then pad on the right to
width `n`. -/
def pyLeftJust (n : Nat) (s : String) : String :=
  let t : String := ⟨s.data.take n⟩
  t ++ String.mk (List.replicate (n - t.length) ' ')

/-- Python `str.splitlines()` for `\n`-separated text (no trailing empty
piece). -/
def pySplitLines (s : String) : List String :=
  if s = "" then []
  else
    let p := pySplitOn '\n' s
    if p.getLast? = some "" then p.dropLast else p

/-- The `while len(line) > desc_col_sz` wrapping loop of
`format_table_description`: emit full-width slices (each followed by the
row filler and the next-row starter) until the remainder fits.  The fuel
argument only serves termination (each step strictly shortens the line when
`0 < sz`, so `line.length` fuel is always enough). -/
def descWrapLoopAux (sz : Nat) (fill startRow : String) :
    Nat → List Char → List String × List Char
  | 0, line => ([], line)
  | fuel + 1, line =>
    if 0 < sz ∧ sz < line.length then
      let r := descWrapLoopAux sz fill startRow fuel (line.drop sz)
      (pyLeftJust sz ⟨line.take sz⟩ :: fill :: startRow :: r.1, r.2)
    else ([], line)

/-- The wrapping loop of `format_table_description` on a whole line. -/
def descWrapLoop (sz : Nat) (fill startRow : String) (line : List Char) :
    List String × List Char :=
  descWrapLoopAux sz fill startRow line.length line

/-- The per-line bodies of `format_table_description`, with the row filler and
next-row starter between consecutive description lines. -/
def descLines (sz : Nat) (fill startRow : String) : List String → List String
  | [] => []
  | [l] =>
    let r := descWrapLoop sz fill startRow (pstrip l).data
    r.1 ++ [pyLeftJust sz ⟨r.2⟩]
  | l :: l2 :: rest =>
    let r := descWrapLoop sz fill startRow (pstrip l).data
    r.1 ++ [pyLeftJust sz ⟨r.2⟩] ++ [fill, startRow] ++ descLines sz fill startRow (l2 :: rest)

/-- `Writer.format_table_description`. -/
def formatTableDescription (descr : String) (descColSz : Nat)
    (colSizesBefore colSizesAfter : List Nat) : String :=
  let descrS := pstrip descr
  let startNextRow := " * |"
    ++ String.join (colSizesBefore.map (fun sz => String.mk (List.replicate sz ' ') ++ "|"))
  let fillThisRow := "|"
    ++ String.join (colSizesAfter.map (fun sz => String.mk (List.replicate sz ' ') ++ "|"))
    ++ "\n"
  String.join (descLines descColSz fillThisRow startNextRow (pySplitLines descrS))

/-- `Writer.format_table_entry`.  Cells wider than their column are truncated
(the description column instead wraps); a centered cell of even slack gains a
stray trailing space, as in the source. -/
def formatTableEntry (centered : Bool) (name desc ttype value : Option String) : String :=
  let columns := [name, desc, ttype] ++ (if pyTruthy value then [value] else [])
  let colSizes := ([21, 38, 7] : List Nat) ++ (if pyTruthy value then [24] else [])
  let entries := (List.range columns.length).map (fun idx =>
    let item := cellStr (columns.getD idx none)
    let colSz := colSizes.getD idx 0
    if colSz < item.length then
      if idx = 1 then formatTableDescription item colSz (colSizes.take 1) (colSizes.drop 2)
      else (⟨item.data.take colSz⟩ : String)
    else if centered then
      let halfWs := String.mk (List.replicate ((colSz - item.length) / 2) ' ')
      halfWs ++ item ++ " " ++ halfWs
    else item ++ String.mk (List.replicate (colSz - item.length) ' '))
  let entryRow := " * |" ++ String.join (entries.map (fun e => e ++ "|")) ++ "\n"
  let divider := " * +"
    ++ String.join (colSizes.map (fun sz => String.mk (List.replicate sz '-') ++ "+")) ++ "\n"
  entryRow ++ divider

/-- `Writer.write_definition_table_header`. -/
def writeDefinitionTableHeader (definitionsStr : String) (valuePresent : Bool) : String :=
  makeFormattedCommentHeader definitionsStr true false
    ++ (if valuePresent then
          formatTableEntry true (some "NAME") (some "DESCRIPTION") (some "TYPE") (some "VALUE")
        else formatTableEntry true (some "NAME") (some "DESCRIPTION") (some "TYPE") (some ""))

/-- `Writer.write_defines` (the namespace is uppercased without replacing the
slash). -/
def writeDefines (adm : AdmModel) : String :=
  let nameU := pyUpper adm.norm_name
  let nsU := pyUpper adm.norm_namespace
  "\n#ifndef ADM_" ++ nameU ++ "_H_\n#define ADM_" ++ nameU ++ "_H_\n#define _HAVE_"
    ++ nsU ++ "_ADM_\n#ifdef _HAVE_" ++ nsU ++ "_ADM_\n"

/-- `Writer.write_endifs` (here the slash IS replaced before uppercasing). -/
def writeEndifs (adm : AdmModel) : String :=
  let nameU := pyUpper adm.norm_name
  let nsU := pyUpper (pyReplace adm.norm_namespace "/" "_")
  "\n#endif /* _HAVE_" ++ nsU ++ "_ADM_ */\n#endif /* ADM_" ++ nameU ++ "_H_ */\n"

/-- `Writer.write_includes`. -/
def writeIncludes : String :=
  makeIncludes ["shared/utils/nm_types.h", "shared/adm/adm.h"]

/-- `Writer.write_adm_template_documentation`. -/
def writeAdmTemplateDocumentation (adm : AdmModel) : String :=
  makeFormattedCommentHeader "ADM TEMPLATE DOCUMENTATION" true false
    ++ " *\n * ADM ROOT STRING:" ++ adm.norm_namespace ++ "\n */\n"
    ++ "extern vec_idx_t g_" ++ pyLower (pyReplace adm.norm_namespace "/" "_")
    ++ "_idx[11];\n"

/-- `Writer.write_agent_nickname_definitions`. -/
def writeAgentNicknameDefinitions (adm : AdmModel) : String :=
  makeFormattedCommentHeader "AGENT NICKNAME DEFINITIONS" true true
    ++ "#define " ++ makeEnumNameFromStr (pyLower adm.norm_namespace) ++ " "
    ++ toString adm.enum ++ "\n"

/-- `Writer.write_metadata_definitions`. -/
def writeMetadataDefinitions (adm : AdmModel) : String :=
  let rows := adm.mdat.foldl
    (fun acc obj =>
      (acc.1 ++ formatTableEntry false (some obj.name) obj.description (some obj.type)
          (some obj.value),
       acc.2 ++ "// \"" ++ obj.name ++ "\"\n"
         ++ "#define " ++ makeAriNameFromStr adm.norm_namespace .meta obj.name ++ " "
         ++ pyHashHex obj.enum ++ "\n"))
    ("", "")
  writeDefinitionTableHeader (pyUpper adm.norm_namespace ++ " META-DATA DEFINITIONS") true
    ++ rows.1 ++ " */\n" ++ rows.2 ++ "\n"

/-- `Writer.write_edd_definitions`. -/
def writeEddDefinitions (adm : AdmModel) : String :=
  let rows := adm.edd.foldl
    (fun acc obj =>
      (acc.1 ++ formatTableEntry false (some obj.name) obj.description (some obj.type)
          (some ""),
       acc.2 ++ "#define " ++ makeAriNameFromStr adm.norm_namespace .edd obj.name ++ " "
         ++ pyHashHex obj.enum ++ "\n"))
    ("", "")
  writeDefinitionTableHeader
      (pyUpper adm.norm_namespace ++ " EXTERNALLY DEFINED DATA DEFINITIONS") false
    ++ rows.1 ++ " */\n" ++ rows.2 ++ "\n"

/-- `Writer.write_variable_definitions`. -/
def writeVariableDefinitions (adm : AdmModel) : String :=
  let rows := adm.var.foldl
    (fun acc obj =>
      (acc.1 ++ formatTableEntry false (some obj.name) obj.description (some obj.type)
          (some ""),
       acc.2 ++ "#define " ++ makeAriNameFromStr adm.norm_namespace .var obj.name ++ " "
         ++ pyHashHex obj.enum ++ "\n"))
    ("", "")
  writeDefinitionTableHeader (pyUpper adm.norm_namespace ++ " VARIABLE DEFINITIONS") false
    ++ rows.1 ++ " */\n" ++ rows.2 ++ "\n"

/-- `Writer.write_rptt_definitions`. -/
def writeRpttDefinitions (adm : AdmModel) : String :=
  let rows := adm.rptt.foldl
    (fun acc obj =>
      (acc.1 ++ formatTableEntry false (some obj.name) obj.description (some "TNVC")
          (some ""),
       acc.2 ++ "#define " ++ makeAriNameFromStr adm.norm_namespace .rptt obj.name ++ " "
         ++ pyHashHex obj.enum ++ "\n"))
    ("", "")
  writeDefinitionTableHeader (pyUpper adm.norm_namespace ++ " REPORT DEFINITIONS") false
    ++ rows.1 ++ " */\n" ++ rows.2 ++ "\n"

/-- `Writer.write_tblt_definitions`. -/
def writeTbltDefinitions (adm : AdmModel) : String :=
  let rows := adm.tblt.foldl
    (fun acc obj =>
      (acc.1 ++ formatTableEntry false (some obj.name) obj.description (some "") (some ""),
       acc.2 ++ "#define " ++ makeAriNameFromStr adm.norm_namespace .tblt obj.name ++ " "
         ++ pyHashHex obj.enum ++ "\n"))
    ("", "")
  writeDefinitionTableHeader (pyUpper adm.norm_namespace ++ " TABLE DEFINITIONS") false
    ++ rows.1 ++ " */\n" ++ rows.2 ++ "\n"

/-- `Writer.write_ctrl_definitions`. -/
def writeCtrlDefinitions (adm : AdmModel) : String :=
  let rows := adm.ctrl.foldl
    (fun acc obj =>
      (acc.1 ++ formatTableEntry false (some obj.name) obj.description (some "") (some ""),
       acc.2 ++ "#define " ++ makeAriNameFromStr adm.norm_namespace .ctrl obj.name ++ " "
         ++ pyHashHex obj.enum ++ "\n"))
    ("", "")
  writeDefinitionTableHeader (pyUpper adm.norm_namespace ++ " CONTROL DEFINITIONS") false
    ++ rows.1 ++ " */\n" ++ rows.2 ++ "\n"

/-- `Writer.write_const_definitions`. -/
def writeConstDefinitions (adm : AdmModel) : String :=
  let rows := adm.const.foldl
    (fun acc obj =>
      (acc.1 ++ formatTableEntry false (some obj.name) obj.description (some obj.type)
          (some obj.value),
       acc.2 ++ "#define " ++ makeAriNameFromStr adm.norm_namespace .const obj.name ++ " "
         ++ pyHashHex obj.enum ++ "\n"))
    ("", "")
  writeDefinitionTableHeader (pyUpper adm.norm_namespace ++ " CONSTANT DEFINITIONS") true
    ++ rows.1 ++ " */\n" ++ rows.2 ++ "\n"

/-- `Writer.write_macro_definitions`. -/
def writeMacroDefinitions (adm : AdmModel) : String :=
  let rows := adm.mac.foldl
    (fun acc obj =>
      (acc.1 ++ formatTableEntry false (some obj.name) obj.description (some "mc") (some ""),
       acc.2 ++ "#define " ++ makeAriNameFromStr adm.norm_namespace .mac obj.name ++ " "
         ++ pyHashHex obj.enum ++ "\n"))
    ("", "")
  writeDefinitionTableHeader (pyUpper adm.norm_namespace ++ " MACRO DEFINITIONS") false
    ++ rows.1 ++ " */\n" ++ rows.2 ++ "\n"

/-- `Writer.write_op_definitions`. -/
def writeOpDefinitions (adm : AdmModel) : String :=
  let rows := adm.oper.foldl
    (fun acc obj =>
      (acc.1 ++ formatTableEntry false (some obj.name) obj.description (some obj.result_type)
          (some ""),
       acc.2 ++ "#define " ++ makeAriNameFromStr adm.norm_namespace .op obj.name ++ " "
         ++ pyHashHex obj.enum ++ "\n"))
    ("", "")
  writeDefinitionTableHeader (pyUpper adm.norm_namespace ++ " OPERATOR DEFINITIONS") false
    ++ rows.1 ++ " */\n" ++ rows.2 ++ "\n"

/-- `Writer.write_initialization_functions`. -/
def writeInitializationFunctions (adm : AdmModel) : String :=
  "/* Initialization functions. */\nvoid " ++ adm.norm_namespace ++ "_init();\n"

/-- `create_gen_h.Writer.write`: the complete shared header, as the
concatenation of the block writers in their fixed call order. -/
def genHWrite (adm : AdmModel) (today : String) : String :=
  writeHFileHeader ("adm_" ++ adm.norm_name ++ ".h") today
    ++ writeDefines adm
    ++ writeIncludes
    ++ makeCplusplusOpen
    ++ writeAdmTemplateDocumentation adm
    ++ writeAgentNicknameDefinitions adm
    ++ writeMetadataDefinitions adm
    ++ writeEddDefinitions adm
    ++ writeVariableDefinitions adm
    ++ writeRpttDefinitions adm
    ++ writeTbltDefinitions adm
    ++ writeCtrlDefinitions adm
    ++ writeConstDefinitions adm
    ++ writeMacroDefinitions adm
    ++ writeOpDefinitions adm
    ++ writeInitializationFunctions adm
    ++ makeCplusplusClose
    ++ writeEndifs adm

end GenH

namespace Campch

open Adm Settings Util

/-- `write_formatted_init_function`. -/
def writeFormattedInitFunction (name : String) (coll : Option Settings.Coll)
    (body : String) : String :=
  let ttype :=
    match coll with
    | some c => "_" ++ pyReplace (Settings.getSname c) "-" "_"
    | none => ""
  "void " ++ name ++ "_init" ++ ttype ++ "()\n\x7b\n" ++ body ++ "\n\x7d\n\n"

/-- The ordered `obj_types` dict of `write_init_function`, paired with whether
the corresponding ADM attribute is non-empty (`getattr` truthiness). -/
def initObjTypes (adm : AdmModel) : List (Settings.Coll × Bool) :=
  [(.meta, !adm.mdat.isEmpty), (.const, !adm.const.isEmpty), (.edd, !adm.edd.isEmpty),
   (.op, !adm.oper.isEmpty), (.var, !adm.var.isEmpty), (.ctrl, !adm.ctrl.isEmpty),
   (.mac, !adm.mac.isEmpty), (.rptt, !adm.rptt.isEmpty), (.tblt, !adm.tblt.isEmpty)]

/-- `campch.write_init_function`: forward declarations for the nine per-kind
init functions, then the combined init function whose body registers the
nicknames of the kinds that have objects and calls each per-kind init function
in the fixed order of `obj_types`. -/
def writeInitFunction (adm : AdmModel) (gVarIdx : String) (mgr : Bool) : String :=
  let enumName := makeEnumNameFromStr adm.norm_namespace
  let vdbAdds0 := "\tadm_add_adm_info(\"" ++ adm.norm_namespace ++ "\", " ++ enumName ++ ");\n"
  let initDecls := String.join ((initObjTypes adm).map (fun p =>
    "static void " ++ adm.norm_namespace ++ "_init_" ++ pyLower (Settings.getSname p.1)
      ++ "(void);\n"))
  let vdbAdds := vdbAdds0 ++ String.join ((initObjTypes adm).map (fun p =>
    if p.2 then
      "\n\tVDB_ADD_NN(((" ++ enumName ++ " * 20) + " ++ Settings.getAdmIdx p.1 ++ "), &("
        ++ gVarIdx ++ "[" ++ Settings.getAdmIdx p.1 ++ "]));"
    else ""))
  let initCalls0 := if mgr then "" else "\n\t" ++ adm.norm_namespace ++ "_setup();"
  let initCalls := initCalls0 ++ String.join ((initObjTypes adm).map (fun p =>
    "\n\t" ++ adm.norm_namespace ++ "_init_" ++ pyLower (Settings.getSname p.1) ++ "();"))
  initDecls ++ "\n"
    ++ writeFormattedInitFunction adm.norm_namespace none (vdbAdds ++ "\n\n" ++ initCalls)

end Campch

/-! ### Concrete ADM fixtures and string-search helpers

Small concrete `AdmModel` values used to evaluate the generator pipelines on
specific inputs, plus a character-level substring search (so that positional
facts about generated text can be decided without relying on `String`
internals). -/

/-- A minimal ADM with a single constant `mySize` of AMP type UINT, value 4 and
enumeration 3, living in namespace `test/adm`. -/
def scenarioConstAdm : Adm.AdmModel :=
  { norm_name := "test_adm"
    norm_namespace := "test/adm"
    adm_ns := "test/adm"
    enum := 1
    mdat := []
    const := [{ name := "mySize", description := some "The size constant",
                type := "UINT", value := "4", enum := 3 }]
    edd := []
    oper := []
    var := []
    tblt := []
    rptt := []
    ctrl := []
    mac := [] }

/-- `scenarioConstAdm` extended with one externally defined data item, so the
output contains both an EDD block and a CONST block. -/
def scenarioKindAdm : Adm.AdmModel :=
  { scenarioConstAdm with
    edd := [{ name := "myEdd", description := none, type := "UINT",
              parmspec := none, enum := 1 }] }

/-- `scenarioConstAdm` extended with one macro definition. -/
def scenarioMacAdm : Adm.AdmModel :=
  { scenarioConstAdm with
    mac := [{ name := "myMac", description := none, parmspec := none,
              action_items := [], enum := 2 }] }

/-- Index of the first occurrence of `pat` at or after position `i` in a
character list. -/
def firstPosAux (pat : List Char) : List Char → Nat → Option Nat
  | [], i => if pat.isPrefixOf [] then some i else none
  | c :: rest, i =>
    if pat.isPrefixOf (c :: rest) then some i else firstPosAux pat rest (i + 1)

/-- Index of the first occurrence of `pat` in the string `s`. -/
def strPos (pat s : String) : Option Nat :=
  firstPosAux pat.data s.data 0

/-- Whether `pat` occurs as a substring of `s`. -/
def strContains (s pat : String) : Bool :=
  (strPos pat s).isSome

namespace Roundtrip

/-! Lemmas about the singleton-region scans. -/

theorem scanToMarker_append (m : String) (b ls : List String)
    (hb : ∀ l ∈ b, pstrip l ≠ m) :
    scanToMarker m (b ++ ls) = scanToMarker m ls := by
  induction b with
  | nil => rfl
  | cons x xs ih =>
    simp only [List.cons_append, scanToMarker]
    rw [if_neg (hb x (by simp))]
    exact ih (fun l hl => hb l (by simp [hl]))

theorem scanToMarker_cons_self (m l : String) (ls : List String) (h : pstrip l = m) :
    scanToMarker m (l :: ls) = ls := by
  simp [scanToMarker, h]

theorem collectToMarker_spec (m : String) (c : List String) (e : String)
    (rest : List String) (hc : ∀ l ∈ c, pstrip l ≠ m) (he : pstrip e = m) :
    collectToMarker m (c ++ e :: rest) = (c, rest) := by
  induction c with
  | nil => simp [collectToMarker, he]
  | cons x xs ih =>
    simp only [List.cons_append, collectToMarker]
    rw [if_neg (hc x (by simp))]
    simp [ih (fun l hl => hc l (by simp [hl]))]

/-- One extracted region: skip boilerplate to the start marker, then collect
content up to the end marker. -/
theorem scan_collect (mS mE : String) (b c rest : List String)
    (hb : ∀ l ∈ b, pstrip l ≠ mS) (hS : pstrip mS = mS)
    (hc : ∀ l ∈ c, pstrip l ≠ mE) (hE : pstrip mE = mE) :
    collectToMarker mE (scanToMarker mS (b ++ mS :: (c ++ mE :: rest))) = (c, rest) := by
  rw [scanToMarker_append _ _ _ hb, scanToMarker_cons_self _ _ _ hS,
    collectToMarker_spec _ _ _ _ hc hE]

/-! Lemmas about the body-marker regex model. -/

theorem isPrefixOf_false_of_short (pat l : List Char) (h : l.length < pat.length) :
    pat.isPrefixOf l = false := by
  rw [Bool.eq_false_iff]
  intro hp
  rw [List.isPrefixOf_iff_prefix] at hp
  have := hp.length_le
  omega

theorem isPrefixOf_append_self (pat t : List Char) : pat.isPrefixOf (pat ++ t) = true := by
  rw [List.isPrefixOf_iff_prefix]
  exact List.prefix_append pat t

theorem isPrefixOf_self (l : List Char) : l.isPrefixOf l = true := by
  rw [List.isPrefixOf_iff_prefix]

theorem greedyAux_step (post : List Char) (i : Nat)
    (h : bodyLit.isPrefixOf (post.drop (i + 1)) = false) :
    greedyAux post (i + 1) = greedyAux post i := by
  simp [greedyAux, h]

theorem greedyAux_down (post : List Char) (n : Nat)
    (h : ∀ j, n < j → bodyLit.isPrefixOf (post.drop j) = false) :
    ∀ k, greedyAux post (n + k) = greedyAux post n := by
  intro k
  induction k with
  | zero => rfl
  | succ k ih =>
    rw [Nat.add_succ, greedyAux_step _ _ (h _ (by omega)), ih]

/-- The greedy `(.+) BODY` group of `<name> BODY` is exactly the (nonempty)
name, whatever it contains: no occurrence of ` BODY` can lie further right
than the final one. -/
theorem greedyGroup_concat (ftl : List Char) (hne : ftl ≠ []) :
    greedyGroup (ftl ++ bodyLit) = some ftl := by
  have hlen : (ftl ++ bodyLit).length = ftl.length + 5 := by
    simp [bodyLit]
  unfold greedyGroup
  rw [hlen, greedyAux_down (ftl ++ bodyLit) ftl.length ?high 5]
  case high =>
    intro j hj
    apply isPrefixOf_false_of_short
    simp only [List.length_drop, hlen]
    have : bodyLit.length = 5 := rfl
    omega
  have hpos : ftl.length ≠ 0 := by
    simpa using fun h => hne (List.eq_nil_of_length_eq_zero h)
  cases hft : ftl.length with
  | zero => exact absurd hft hpos
  | succ m =>
    have hdrop : (ftl ++ bodyLit).drop (m + 1) = bodyLit := by
      rw [← hft, List.drop_left]
    have htake : (ftl ++ bodyLit).take (m + 1) = ftl := by
      rw [← hft, List.take_left]
    rw [greedyAux, hdrop, isPrefixOf_self]
    simp [htake]

theorem reSearchStart_of_prefix_group (ls g : List Char)
    (h : startLit.isPrefixOf ls = true)
    (hg : greedyGroup (ls.drop startLit.length) = some g) :
    reSearchStart ls = some ⟨g⟩ := by
  cases ls with
  | nil => simp [startLit] at h
  | cons c rest => simp [reSearchStart, h, hg]

/-- Stripping the written start-marker line exposes exactly
`startLit ++ f ++ bodyLit`. -/
theorem dropTrailingSpace_concat (l : List Char) (c : Char) (h : isPySpace c = false) :
    dropTrailingSpace (l ++ [c]) = l ++ [c] := by
  unfold dropTrailingSpace
  rw [List.reverse_append]
  simp [List.dropWhile, h]

theorem dropTrailingSpace_append_BODY (l : List Char) :
    dropTrailingSpace (l ++ " BODY".data) = l ++ " BODY".data := by
  have h : l ++ " BODY".data = (l ++ [' ', 'B', 'O', 'D']) ++ ['Y'] := by
    simp
  rw [h, dropTrailingSpace_concat _ _ (by decide)]

/-- Stripping a written marker line (`"\t * |<MID> CUSTOM FUNCTION <f> BODY"`)
yields `"* |<MID> CUSTOM FUNCTION " ++ f ++ " BODY"` at the character level. -/
theorem pstripL_fence (t : List Char)
    (htrail : dropTrailingSpace ('*' :: ' ' :: '|' :: t) = '*' :: ' ' :: '|' :: t) :
    pstripL ('\t' :: ' ' :: '*' :: ' ' :: '|' :: t) = '*' :: ' ' :: '|' :: t := by
  unfold pstripL
  have hstep : List.dropWhile isPySpace ('\t' :: ' ' :: '*' :: ' ' :: '|' :: t)
      = '*' :: ' ' :: '|' :: t := rfl
  rw [hstep, htrail]

/-- A nonempty string has nonempty character data. -/
theorem data_ne_nil (f : String) (hf : f ≠ "") : f.data ≠ [] := by
  intro h
  apply hf
  cases f with
  | mk d => cases h; rfl

/-- The scan side recognizes exactly the written start-marker line and
captures the function name. -/
theorem reSearchStart_startline (f : String) (hf : f ≠ "") :
    reSearchStart (pstrip ("\t * " ++ startMarkerText f)).data = some f := by
  have hdata : (pstrip ("\t * " ++ startMarkerText f)).data
      = pstripL ('\t' :: ' ' :: '*' :: ' ' :: '|' ::
          ("START CUSTOM FUNCTION ".data ++ (f.data ++ " BODY".data))) := rfl
  rw [hdata, pstripL_fence]
  case htrail =>
    have h : '*' :: ' ' :: '|' :: ("START CUSTOM FUNCTION ".data ++ (f.data ++ " BODY".data))
        = (('*' :: ' ' :: '|' :: "START CUSTOM FUNCTION ".data) ++ f.data) ++ " BODY".data := by
      simp
    rw [h, dropTrailingSpace_append_BODY]
  have hshape : '*' :: ' ' :: '|' ::
      ("START CUSTOM FUNCTION ".data ++ (f.data ++ " BODY".data))
      = startLit ++ (f.data ++ bodyLit) := rfl
  rw [hshape, reSearchStart_of_prefix_group _ f.data (isPrefixOf_append_self _ _)]
  rw [List.drop_left]
  exact greedyGroup_concat f.data (data_ne_nil f hf)

/-- The scan side accepts the written stop-marker line for ANY nonempty
function name (the captured group is never compared with the open one). -/
theorem reMatchStop_stopline (f : String) (hf : f ≠ "") :
    reMatchStop (pstrip ("\t * " ++ stopMarkerText f)).data = true := by
  have hdata : (pstrip ("\t * " ++ stopMarkerText f)).data
      = pstripL ('\t' :: ' ' :: '*' :: ' ' :: '|' ::
          ("STOP CUSTOM FUNCTION ".data ++ (f.data ++ " BODY".data))) := rfl
  rw [hdata, pstripL_fence]
  case htrail =>
    have h : '*' :: ' ' :: '|' :: ("STOP CUSTOM FUNCTION ".data ++ (f.data ++ " BODY".data))
        = (('*' :: ' ' :: '|' :: "STOP CUSTOM FUNCTION ".data) ++ f.data) ++ " BODY".data := by
      simp
    rw [h, dropTrailingSpace_append_BODY]
  have hshape : '*' :: ' ' :: '|' ::
      ("STOP CUSTOM FUNCTION ".data ++ (f.data ++ " BODY".data))
      = stopLit ++ (f.data ++ bodyLit) := rfl
  rw [hshape]
  unfold reMatchStop
  rw [isPrefixOf_append_self, List.drop_left, greedyGroup_concat f.data (data_ne_nil f hf)]
  rfl

/-! Lemmas about the `func_bods` dictionary operations. -/

theorem mapEntry_cons (e : String × List String) (es : FuncDict) (k : String)
    (g : List String → List String) :
    mapEntry (e :: es) k g = (if e.1 == k then (e.1, g e.2) else e) :: mapEntry es k g := rfl

theorem dictFind?_mapEntry (d : FuncDict) (k : String) (g : List String → List String) :
    dictFind? (mapEntry d k g) k = (dictFind? d k).map (fun e => (e.1, g e.2)) := by
  induction d with
  | nil => rfl
  | cons e es ih =>
    rw [mapEntry_cons]
    by_cases he : e.1 = k
    · have h1 : (if e.1 == k then (e.1, g e.2) else e) = (e.1, g e.2) := by simp [he]
      rw [h1]
      unfold dictFind?
      rw [List.find?_cons_of_pos _ (by simp [he]), List.find?_cons_of_pos _ (by simp [he])]
      rfl
    · have h1 : (if e.1 == k then (e.1, g e.2) else e) = e := by simp [he]
      rw [h1]
      unfold dictFind?
      rw [List.find?_cons_of_neg _ (by simp [he]), List.find?_cons_of_neg _ (by simp [he])]
      exact ih

theorem dictFind?_mapEntry_ne (d : FuncDict) (k k' : String) (g : List String → List String)
    (h : k' ≠ k) : dictFind? (mapEntry d k g) k' = dictFind? d k' := by
  induction d with
  | nil => rfl
  | cons e es ih =>
    rw [mapEntry_cons]
    by_cases he : e.1 = k
    · have hne : ¬ e.1 = k' := by
        rw [he]
        exact fun hh => h hh.symm
      have h1 : (if e.1 == k then (e.1, g e.2) else e) = (e.1, g e.2) := by simp [he]
      rw [h1]
      unfold dictFind?
      rw [List.find?_cons_of_neg _ (by simp [hne]), List.find?_cons_of_neg _ (by simp [hne])]
      exact ih
    · have h1 : (if e.1 == k then (e.1, g e.2) else e) = e := by simp [he]
      rw [h1]
      unfold dictFind?
      by_cases he' : e.1 = k'
      · rw [List.find?_cons_of_pos _ (by simp [he']), List.find?_cons_of_pos _ (by simp [he'])]
      · rw [List.find?_cons_of_neg _ (by simp [he']), List.find?_cons_of_neg _ (by simp [he'])]
        exact ih

theorem mapEntry_mapEntry (d : FuncDict) (k : String) (g1 g2 : List String → List String) :
    mapEntry (mapEntry d k g1) k g2 = mapEntry d k (fun v => g2 (g1 v)) := by
  unfold mapEntry
  rw [List.map_map]
  apply List.map_congr_left
  intro e _
  cases e with
  | mk a b =>
    by_cases he : a = k
    · simp [he]
    · simp [he]

theorem mapEntry_of_none (d : FuncDict) (k : String) (g : List String → List String)
    (h : dictFind? d k = none) : mapEntry d k g = d := by
  unfold mapEntry
  have hall := List.find?_eq_none.mp h
  conv_rhs => rw [← List.map_id d]
  apply List.map_congr_left
  intro e he
  have hne : ¬ e.1 = k := by
    have := hall e he
    simpa using this
  simp [hne]

theorem dictFind?_append (d1 d2 : FuncDict) (k : String) :
    dictFind? (d1 ++ d2) k = (dictFind? d1 k).orElse (fun _ => dictFind? d2 k) := by
  unfold dictFind?
  induction d1 with
  | nil => rfl
  | cons e es ih =>
    by_cases he : e.1 = k
    · rw [List.cons_append, List.find?_cons_of_pos _ (by simp [he]),
        List.find?_cons_of_pos _ (by simp [he])]
      rfl
    · rw [List.cons_append, List.find?_cons_of_neg _ (by simp [he]),
        List.find?_cons_of_neg _ (by simp [he])]
      exact ih

theorem mapEntry_append_nil_fun (d : FuncDict) (k : String) :
    mapEntry d k (fun v => v ++ []) = d := by
  unfold mapEntry
  conv_rhs => rw [← List.map_id d]
  apply List.map_congr_left
  intro e _
  cases e with
  | mk a b =>
    by_cases he : a = k
    · simp [he]
    · simp [he]

theorem mapEntry_append (d1 d2 : FuncDict) (k : String) (g : List String → List String) :
    mapEntry (d1 ++ d2) k g = mapEntry d1 k g ++ mapEntry d2 k g := by
  unfold mapEntry
  exact List.map_append _ _ _

theorem dictPopLast_eq_of_find (d : FuncDict) (k : String) (e : String × List String)
    (he : dictFind? d k = some e) (hne : e.2 ≠ []) :
    dictPopLast d k = some (mapEntry d k List.dropLast) := by
  unfold dictPopLast
  rw [he]
  show (if e.2 = [] then none else some (mapEntry d k List.dropLast))
      = some (mapEntry d k List.dropLast)
  rw [if_neg hne]

theorem foldl_dictAppend_of_isSome (f : String) (bs : List String) :
    ∀ d : FuncDict, (dictFind? d f).isSome →
      bs.foldl (fun d l => dictAppend d f l) d = mapEntry d f (fun v => v ++ bs) := by
  induction bs with
  | nil =>
    intro d _
    rw [List.foldl_nil, mapEntry_append_nil_fun]
  | cons b bs ih =>
    intro d h
    rw [List.foldl_cons]
    have hd : dictAppend d f b = mapEntry d f (fun v => v ++ [b]) := by
      unfold dictAppend
      rw [if_pos h]
    rw [hd, ih _ ?hsome, mapEntry_mapEntry]
    case hsome =>
      rw [dictFind?_mapEntry]
      cases hfd : dictFind? d f with
      | none => rw [hfd] at h; cases h
      | some e => simp
    congr 1
    funext v
    simp

theorem foldl_dictAppend_of_none (f : String) (l : List String) (d : FuncDict)
    (hne : l ≠ []) (h : dictFind? d f = none) :
    l.foldl (fun d l => dictAppend d f l) d = d ++ [(f, l)] := by
  cases l with
  | nil => exact absurd rfl hne
  | cons b bs =>
    rw [List.foldl_cons]
    have hd : dictAppend d f b = d ++ [(f, [b])] := by
      unfold dictAppend
      rw [h]
      rfl
    have hsome : (dictFind? (d ++ [(f, [b])]) f).isSome := by
      rw [dictFind?_append, h]
      simp [dictFind?, List.find?]
    rw [hd, foldl_dictAppend_of_isSome f bs _ hsome]
    rw [mapEntry_append, mapEntry_of_none d f _ h]
    simp [mapEntry]

theorem dictClose_spec (d : FuncDict) (f : String) (body : List String) :
    dictPopLast ((body ++ ["\t/*"]).foldl (fun d l => dictAppend d f l) d) f
      = some (dictExtend d f body) := by
  cases h : dictFind? d f with
  | some e =>
    have hsome : (dictFind? d f).isSome := by rw [h]; rfl
    rw [foldl_dictAppend_of_isSome f _ d hsome]
    have hfind : dictFind? (mapEntry d f (fun v => v ++ (body ++ ["\t/*"]))) f
        = some (e.1, e.2 ++ (body ++ ["\t/*"])) := by
      rw [dictFind?_mapEntry, h]
      rfl
    rw [dictPopLast_eq_of_find _ _ _ hfind (by simp), mapEntry_mapEntry]
    unfold dictExtend
    rw [if_pos hsome]
    congr 2
    funext v
    rw [← List.append_assoc, List.dropLast_concat]
  | none =>
    rw [foldl_dictAppend_of_none f _ d (by simp) h]
    have hfind : dictFind? (d ++ [(f, body ++ ["\t/*"])]) f = some (f, body ++ ["\t/*"]) := by
      rw [dictFind?_append, h]
      simp [dictFind?, List.find?]
    rw [dictPopLast_eq_of_find _ _ _ hfind (by simp)]
    unfold dictExtend
    have hno : ¬ (dictFind? d f).isSome := by rw [h]; simp
    rw [if_neg hno]
    rw [mapEntry_append, mapEntry_of_none d f _ h]
    simp [mapEntry]

/-! Lemmas about the per-function body scan. -/

theorem ffcb_nil (st : Option String) (d : FuncDict) :
    findFuncCustomBodyLoop [] st d = .ok d := by
  cases st <;> rfl

theorem ffcb_none_cons (l : String) (ls : List String) (d : FuncDict) :
    findFuncCustomBodyLoop (l :: ls) none d
      = match reSearchStart (pstrip l).data with
        | some g => findFuncCustomBodyLoop ls (some g) d
        | none => findFuncCustomBodyLoop ls none d := rfl

theorem ffcb_some_cons (l : String) (ls : List String) (f : String) (d : FuncDict) :
    findFuncCustomBodyLoop (l :: ls) (some f) d
      = if pstrip l = indicator then
          (match ls with
           | [] => Except.error "IndexError: pop from empty list"
           | l2 :: ls2 =>
             if reMatchStop (pstrip l2).data then
               match dictPopLast d f with
               | some d2 => findFuncCustomBodyLoop ls2 none d2
               | none => Except.error "KeyError or IndexError: func_bods[func].pop()"
             else findFuncCustomBodyLoop ls2 (some f) d)
        else findFuncCustomBodyLoop ls (some f) (dictAppend d f l) := by
  cases ls with
  | nil => rfl
  | cons l2 ls2 => rfl

theorem ffcb_none_skip (l : String) (ls : List String) (d : FuncDict)
    (h : reSearchStart (pstrip l).data = none) :
    findFuncCustomBodyLoop (l :: ls) none d = findFuncCustomBodyLoop ls none d := by
  rw [ffcb_none_cons, h]

theorem ffcb_none_start (l : String) (ls : List String) (d : FuncDict) (g : String)
    (h : reSearchStart (pstrip l).data = some g) :
    findFuncCustomBodyLoop (l :: ls) none d = findFuncCustomBodyLoop ls (some g) d := by
  rw [ffcb_none_cons, h]

theorem ffcb_none_skip_append (b : List String)
    (hb : ∀ l ∈ b, reSearchStart (pstrip l).data = none) (ls : List String) (d : FuncDict) :
    findFuncCustomBodyLoop (b ++ ls) none d = findFuncCustomBodyLoop ls none d := by
  induction b with
  | nil => rfl
  | cons x xs ih =>
    rw [List.cons_append, ffcb_none_skip _ _ _ (hb x (by simp))]
    exact ih (fun l hl => hb l (by simp [hl]))

theorem ffcb_content (body : List String) (f : String)
    (hbody : ∀ l ∈ body, pstrip l ≠ indicator) (ls : List String) (d : FuncDict) :
    findFuncCustomBodyLoop (body ++ ls) (some f) d
      = findFuncCustomBodyLoop ls (some f) (body.foldl (fun d l => dictAppend d f l) d) := by
  induction body generalizing d with
  | nil => rfl
  | cons x xs ih =>
    rw [List.cons_append]
    have hx : ¬ pstrip x = indicator := hbody x (by simp)
    have hstep : findFuncCustomBodyLoop (x :: (xs ++ ls)) (some f) d
        = findFuncCustomBodyLoop (xs ++ ls) (some f) (dictAppend d f x) := by
      rw [ffcb_some_cons, if_neg hx]
    rw [hstep, ih (fun l hl => hbody l (by simp [hl])), List.foldl_cons]

theorem ffcb_ind_skip (l1 l2 : String) (ls : List String) (f : String) (d : FuncDict)
    (h1 : pstrip l1 = indicator) (h2 : reMatchStop (pstrip l2).data = false) :
    findFuncCustomBodyLoop (l1 :: l2 :: ls) (some f) d
      = findFuncCustomBodyLoop ls (some f) d := by
  rw [ffcb_some_cons, if_pos h1]
  simp only [h2, Bool.false_eq_true, if_false]

theorem ffcb_ind_close (l1 l2 : String) (ls : List String) (f : String) (d d2 : FuncDict)
    (h1 : pstrip l1 = indicator) (h2 : reMatchStop (pstrip l2).data = true)
    (h3 : dictPopLast d f = some d2) :
    findFuncCustomBodyLoop (l1 :: l2 :: ls) (some f) d
      = findFuncCustomBodyLoop ls none d2 := by
  rw [ffcb_some_cons, if_pos h1]
  simp only [h2, if_true, h3]

/-- Scanning one complete written body region from the outside state extends
the entry for its function name by exactly its content lines and returns to
the outside state. -/
theorem ffcb_block (f : String) (hf : f ≠ "") (body : List String)
    (hbody : ∀ l ∈ body, pstrip l ≠ indicator) (ls : List String) (d : FuncDict) :
    findFuncCustomBodyLoop (bodyBlock f body ++ ls) none d
      = findFuncCustomBodyLoop ls none (dictExtend d f body) := by
  have hsh : bodyBlock f body ++ ls
      = "\t/*" :: ("\t " ++ indicator) :: ("\t * " ++ startMarkerText f)
        :: ("\t " ++ indicator) :: "\t */"
        :: ((body ++ ["\t/*"]) ++ (("\t " ++ indicator) :: ("\t * " ++ stopMarkerText f)
            :: ("\t " ++ indicator) :: "\t */" :: ls)) := by
    simp [bodyBlock, bodyFence]
  rw [hsh]
  rw [ffcb_none_skip _ _ _ (by decide)]
  rw [ffcb_none_skip _ _ _ (by decide)]
  rw [ffcb_none_start _ _ _ f (reSearchStart_startline f hf)]
  rw [ffcb_ind_skip _ _ _ _ _ (by decide) (by decide)]
  rw [ffcb_content _ f ?hb]
  case hb =>
    intro l hl
    rcases List.mem_append.mp hl with h | h
    · exact hbody l h
    · have : l = "\t/*" := by simpa using h
      rw [this]
      decide
  rw [ffcb_ind_close _ _ _ _ _ _ (by decide) (reMatchStop_stopline f hf) (dictClose_spec d f body)]
  rw [ffcb_none_skip _ _ _ (by decide)]
  rw [ffcb_none_skip _ _ _ (by decide)]

/-- Scanning the per-function sections of a written C file yields exactly the
fold of `dictExtend` over the sections. -/
theorem ffcb_parts (parts : List BodyPart)
    (hparts : ∀ p ∈ parts, p.fname ≠ "" ∧ (∀ l ∈ p.body, pstrip l ≠ indicator)
      ∧ (∀ l ∈ p.boiler, reSearchStart (pstrip l).data = none))
    (b2 : List String) (hb2 : ∀ l ∈ b2, reSearchStart (pstrip l).data = none) (d : FuncDict) :
    findFuncCustomBodyLoop
        ((parts.map (fun p => p.boiler ++ bodyBlock p.fname p.body)).flatten ++ b2) none d
      = .ok (parts.foldl (fun d p => dictExtend d p.fname p.body) d) := by
  induction parts generalizing d with
  | nil =>
    have hskip := ffcb_none_skip_append b2 hb2 [] d
    rw [List.append_nil] at hskip
    rw [List.map_nil, List.flatten_nil, List.nil_append, hskip, ffcb_nil, List.foldl_nil]
  | cons p ps ih =>
    have hp := hparts p (by simp)
    have hsh : ((List.map (fun p => p.boiler ++ bodyBlock p.fname p.body) (p :: ps)).flatten
        ++ b2)
        = p.boiler ++ (bodyBlock p.fname p.body
            ++ ((List.map (fun p => p.boiler ++ bodyBlock p.fname p.body) ps).flatten ++ b2)) := by
      simp
    rw [hsh, ffcb_none_skip_append p.boiler hp.2.2, ffcb_block p.fname hp.1 p.body hp.2.1]
    exact ih (fun q hq => hparts q (by simp [hq])) _

/-! Lookup in the dictionary accumulated from written body regions. -/

theorem dictGet_dictExtend_ne (d : FuncDict) (f g : String) (body : List String)
    (h : g ≠ f) : dictGet (dictExtend d f body) g = dictGet d g := by
  unfold dictGet dictExtend
  by_cases hs : (dictFind? d f).isSome
  · rw [if_pos hs, dictFind?_mapEntry_ne _ _ _ _ h]
  · rw [if_neg hs, dictFind?_append]
    have hfg : ¬ f = g := fun hh => h hh.symm
    have hnone : dictFind? [(f, body)] g = none := by
      unfold dictFind?
      rw [List.find?_cons_of_neg _ (by simp [hfg]), List.find?_nil]
    rw [hnone]
    cases dictFind? d g <;> rfl

theorem dictGet_dictExtend_self_of_absent (d : FuncDict) (f : String) (body : List String)
    (h : dictGet d f = none) : dictGet (dictExtend d f body) f = some body := by
  have hfind : dictFind? d f = none := by
    unfold dictGet at h
    cases hf : dictFind? d f with
    | none => rfl
    | some e => rw [hf] at h; cases h
  unfold dictGet dictExtend
  rw [if_neg (by rw [hfind]; simp), dictFind?_append, hfind]
  simp [dictFind?, List.find?]

theorem foldl_dictExtend_get_other (ps : List BodyPart) (g : String)
    (hps : ∀ p ∈ ps, p.fname ≠ g) :
    ∀ d, dictGet (ps.foldl (fun d q => dictExtend d q.fname q.body) d) g = dictGet d g := by
  induction ps with
  | nil => intro d; rfl
  | cons q qs ih =>
    intro d
    rw [List.foldl_cons, ih (fun p hp => hps p (by simp [hp])),
      dictGet_dictExtend_ne _ _ _ _ (fun hh => hps q (by simp) hh.symm)]

theorem foldl_dictExtend_get_mem (ps : List BodyPart) :
    ∀ d (p : BodyPart), p ∈ ps → (ps.map (fun q => q.fname)).Nodup →
      dictGet d p.fname = none →
      dictGet (ps.foldl (fun d q => dictExtend d q.fname q.body) d) p.fname = some p.body := by
  induction ps with
  | nil => intro d p hp; cases hp
  | cons q qs ih =>
    intro d p hp hnd hd
    rw [List.foldl_cons]
    have hcons : (∀ x ∈ qs, ¬ x.fname = q.fname) ∧ (qs.map (fun r => r.fname)).Nodup := by
      simpa using hnd
    rcases List.mem_cons.mp hp with rfl | hmem
    · rw [foldl_dictExtend_get_other qs p.fname ?hother _]
      case hother =>
        intro r hr
        exact hcons.1 r hr
      exact dictGet_dictExtend_self_of_absent d p.fname p.body hd
    · have hne : q.fname ≠ p.fname := fun he => hcons.1 p hmem he.symm
      refine ih (dictExtend d q.fname q.body) p hmem hcons.2 ?_
      rw [dictGet_dictExtend_ne _ _ _ _ (fun hh => hne hh.symm)]
      exact hd

/-- Full characterization of scraping a file written by the C flavor: the
captured includes, functions and per-function dictionary are exactly what was
written. -/
theorem cScrape_written
    (b0 incs b1 fns b2 : List String) (parts : List BodyPart)
    (hb0 : ∀ l ∈ b0, pstrip l ≠ includesStart)
    (hincs : ∀ l ∈ incs, pstrip l ≠ includesEnd)
    (hb1c : ∀ l ∈ b1, pstrip l ≠ functionsStart)
    (hfns : ∀ l ∈ fns, pstrip l ≠ functionsEnd)
    (hparts : ∀ p ∈ parts, p.fname ≠ "" ∧ (∀ l ∈ p.body, pstrip l ≠ indicator)
      ∧ (∀ l ∈ p.boiler, reSearchStart (pstrip l).data = none))
    (hb2c : ∀ l ∈ b2, reSearchStart (pstrip l).data = none) :
    cScraperInit (some (some (cWrittenFile b0 incs b1 fns parts b2)))
        = .ok ⟨incs, fns, partsDict parts⟩ := by
  have hfile : cWrittenFile b0 incs b1 fns parts b2
      = b0 ++ includesStart :: (incs ++ includesEnd :: ("" :: b1 ++ functionsStart ::
          (fns ++ functionsEnd :: ("" ::
            ((parts.map (fun p => p.boiler ++ bodyBlock p.fname p.body)).flatten ++ b2))))) := by
    simp [cWrittenFile, writeCustomIncludes, writeCustomFunctions]
  have hr1 : findCustomIncludesInQueue (cWrittenFile b0 incs b1 fns parts b2)
      = (incs, "" :: b1 ++ functionsStart :: (fns ++ functionsEnd :: ("" ::
          ((parts.map (fun p => p.boiler ++ bodyBlock p.fname p.body)).flatten ++ b2)))) := by
    unfold findCustomIncludesInQueue
    rw [hfile]
    exact scan_collect _ _ _ _ _ hb0 (by decide) hincs (by decide)
  have hr2 : findCustomFunctionsInQueue ("" :: b1 ++ functionsStart ::
        (fns ++ functionsEnd :: ("" ::
          ((parts.map (fun p => p.boiler ++ bodyBlock p.fname p.body)).flatten ++ b2))))
      = (fns, "" ::
          ((parts.map (fun p => p.boiler ++ bodyBlock p.fname p.body)).flatten ++ b2)) := by
    unfold findCustomFunctionsInQueue
    have hshape : ("" :: b1 ++ functionsStart :: (fns ++ functionsEnd :: ("" ::
          ((parts.map (fun p => p.boiler ++ bodyBlock p.fname p.body)).flatten ++ b2))))
        = ("" :: b1) ++ functionsStart :: (fns ++ functionsEnd :: ("" ::
          ((parts.map (fun p => p.boiler ++ bodyBlock p.fname p.body)).flatten ++ b2))) := by
      simp
    rw [hshape]
    refine scan_collect _ _ _ _ _ (fun l hl => ?_) (by decide) hfns (by decide)
    rcases List.mem_cons.mp hl with rfl | hl2
    · decide
    · exact hb1c l hl2
  have hr3 : findFuncCustomBodyInQueue ("" ::
        ((parts.map (fun p => p.boiler ++ bodyBlock p.fname p.body)).flatten ++ b2))
      = .ok (partsDict parts) := by
    unfold findFuncCustomBodyInQueue
    rw [ffcb_none_skip _ _ _ (by decide)]
    exact ffcb_parts parts hparts b2 hb2c []
  have e0 : cScraperInit (some (some (cWrittenFile b0 incs b1 fns parts b2)))
      = (match findFuncCustomBodyInQueue
            ((findCustomFunctionsInQueue
              ((findCustomIncludesInQueue (cWrittenFile b0 incs b1 fns parts b2)).2)).2) with
         | .ok fb => .ok ⟨(findCustomIncludesInQueue (cWrittenFile b0 incs b1 fns parts b2)).1,
             (findCustomFunctionsInQueue
               ((findCustomIncludesInQueue (cWrittenFile b0 incs b1 fns parts b2)).2)).1, fb⟩
         | .error e => .error e) := rfl
  rw [e0]
  simp only [hr1, hr2, hr3]

/-- Full characterization of scraping a file written by the H flavor. -/
theorem hScrape_written
    (b0 incs hb1 enums hb2 fns b3 : List String)
    (hb0 : ∀ l ∈ b0, pstrip l ≠ includesStart)
    (hincs : ∀ l ∈ incs, pstrip l ≠ includesEnd)
    (hhb1 : ∀ l ∈ hb1, pstrip l ≠ typeEnumStart)
    (henums : ∀ l ∈ enums, pstrip l ≠ typeEnumEnd)
    (hhb2 : ∀ l ∈ hb2, pstrip l ≠ functionsStart)
    (hfns : ∀ l ∈ fns, pstrip l ≠ functionsEnd) :
    hScraperInit (some (some (hWrittenFile b0 incs hb1 enums hb2 fns b3)))
        = .ok ⟨incs, enums, fns⟩ := by
  have hfile : hWrittenFile b0 incs hb1 enums hb2 fns b3
      = b0 ++ includesStart :: (incs ++ includesEnd :: ("" :: hb1 ++ typeEnumStart ::
          (enums ++ typeEnumEnd :: ("" :: hb2 ++ functionsStart ::
            (fns ++ functionsEnd :: ("" :: b3)))))) := by
    simp [hWrittenFile, writeCustomIncludes, writeCustomTypeEnums, writeCustomFunctions]
  have hr1 : findCustomIncludesInQueue (hWrittenFile b0 incs hb1 enums hb2 fns b3)
      = (incs, "" :: hb1 ++ typeEnumStart :: (enums ++ typeEnumEnd :: ("" :: hb2
          ++ functionsStart :: (fns ++ functionsEnd :: ("" :: b3))))) := by
    unfold findCustomIncludesInQueue
    rw [hfile]
    exact scan_collect _ _ _ _ _ hb0 (by decide) hincs (by decide)
  have hr2 : findTypeEnumsInQueue ("" :: hb1 ++ typeEnumStart :: (enums ++ typeEnumEnd ::
        ("" :: hb2 ++ functionsStart :: (fns ++ functionsEnd :: ("" :: b3)))))
      = (enums, "" :: hb2 ++ functionsStart :: (fns ++ functionsEnd :: ("" :: b3))) := by
    unfold findTypeEnumsInQueue
    have hshape : ("" :: hb1 ++ typeEnumStart :: (enums ++ typeEnumEnd ::
          ("" :: hb2 ++ functionsStart :: (fns ++ functionsEnd :: ("" :: b3)))))
        = ("" :: hb1) ++ typeEnumStart :: (enums ++ typeEnumEnd ::
          ("" :: hb2 ++ functionsStart :: (fns ++ functionsEnd :: ("" :: b3)))) := by
      simp
    rw [hshape]
    refine scan_collect _ _ _ _ _ (fun l hl => ?_) (by decide) henums (by decide)
    rcases List.mem_cons.mp hl with rfl | hl2
    · decide
    · exact hhb1 l hl2
  have hr3 : findCustomFunctionsInQueue ("" :: hb2 ++ functionsStart ::
        (fns ++ functionsEnd :: ("" :: b3)))
      = (fns, "" :: b3) := by
    unfold findCustomFunctionsInQueue
    have hshape : ("" :: hb2 ++ functionsStart :: (fns ++ functionsEnd :: ("" :: b3)))
        = ("" :: hb2) ++ functionsStart :: (fns ++ functionsEnd :: ("" :: b3)) := by
      simp
    rw [hshape]
    refine scan_collect _ _ _ _ _ (fun l hl => ?_) (by decide) hfns (by decide)
    rcases List.mem_cons.mp hl with rfl | hl2
    · decide
    · exact hhb2 l hl2
  have e0 : hScraperInit (some (some (hWrittenFile b0 incs hb1 enums hb2 fns b3)))
      = .ok ⟨(findCustomIncludesInQueue (hWrittenFile b0 incs hb1 enums hb2 fns b3)).1,
          (findTypeEnumsInQueue
            ((findCustomIncludesInQueue (hWrittenFile b0 incs hb1 enums hb2 fns b3)).2)).1,
          (findCustomFunctionsInQueue
            ((findTypeEnumsInQueue
              ((findCustomIncludesInQueue (hWrittenFile b0 incs hb1 enums hb2 fns b3)).2)).2)).1⟩ :=
    rfl
  rw [e0]
  simp only [hr1, hr2, hr3]
/-- Lookup of a written part in the accumulated dictionary (function names
pairwise distinct). -/
theorem partsDict_get (parts : List BodyPart) (p : BodyPart) (hp : p ∈ parts)
    (hnodup : (parts.map (fun q => q.fname)).Nodup) :
    dictGet (partsDict parts) p.fname = some p.body := by
  unfold partsDict
  exact foldl_dictExtend_get_mem parts [] p hp hnodup rfl

/-- `write_custom_body` with no captured entry emits the two marker fences
with no content lines between them. -/
theorem writeCustomBody_absent (d : FuncDict) (h : String) (hd : dictGet d h = none) :
    writeCustomBody d h = bodyFence (startMarkerText h) ++ bodyFence (stopMarkerText h) := by
  unfold writeCustomBody
  rw [hd]
  rfl

/-- C1: Round-trip stability of the scrape engine.  For a file text produced
by the engine's own write side — boilerplate around the includes region, the
functions region, the per-function body regions (C flavor), or around the
includes, type-enum and functions regions (H flavor) — constructing a new
scraper of the same flavor on that text captures exactly the line lists that
were written: the includes, functions (and type-enum) captures equal the
written lists, the per-function dictionary maps each written function name to
its written body, and re-emitting with `write_custom_body` reproduces the
region byte-identically, even when the written lists are hand-authored
non-empty insertions.  The hypotheses are the marker-grammar invariant:
boilerplate and inserted lines do not themselves strip to marker lines,
function names are non-empty and pairwise distinct. -/
theorem C1_roundtrip_stability
    (b0 incs b1 fns b2 enums hb1 hb2 b3 : List String) (parts : List BodyPart)
    (hb0 : ∀ l ∈ b0, pstrip l ≠ includesStart)
    (hincs : ∀ l ∈ incs, pstrip l ≠ includesEnd)
    (hb1c : ∀ l ∈ b1, pstrip l ≠ functionsStart)
    (hfns : ∀ l ∈ fns, pstrip l ≠ functionsEnd)
    (hparts : ∀ p ∈ parts, p.fname ≠ "" ∧ (∀ l ∈ p.body, pstrip l ≠ indicator)
      ∧ (∀ l ∈ p.boiler, reSearchStart (pstrip l).data = none))
    (hb2c : ∀ l ∈ b2, reSearchStart (pstrip l).data = none)
    (hnodup : (parts.map (fun p => p.fname)).Nodup)
    (hhb1 : ∀ l ∈ hb1, pstrip l ≠ typeEnumStart)
    (henums : ∀ l ∈ enums, pstrip l ≠ typeEnumEnd)
    (hhb2 : ∀ l ∈ hb2, pstrip l ≠ functionsStart) :
    cScraperInit (some (some (cWrittenFile b0 incs b1 fns parts b2)))
        = .ok ⟨incs, fns, partsDict parts⟩
    ∧ (∀ p ∈ parts, dictGet (partsDict parts) p.fname = some p.body
        ∧ writeCustomBody (partsDict parts) p.fname = bodyBlock p.fname p.body)
    ∧ hScraperInit (some (some (hWrittenFile b0 incs hb1 enums hb2 fns b3)))
        = .ok ⟨incs, enums, fns⟩ := by
  refine ⟨cScrape_written b0 incs b1 fns b2 parts hb0 hincs hb1c hfns hparts hb2c, ?_,
    hScrape_written b0 incs hb1 enums hb2 fns b3 hb0 hincs hhb1 henums hhb2 hfns⟩
  intro p hp
  have hg := partsDict_get parts p hp hnodup
  refine ⟨hg, ?_⟩
  unfold writeCustomBody bodyBlock
  rw [hg]
  rfl

theorem C1_roundtrip_stability_witness :
    ((∀ l ∈ ["// header"], pstrip l ≠ includesStart)
      ∧ (∀ l ∈ ["#include <custom.h>"], pstrip l ≠ includesEnd)
      ∧ (∀ l ∈ ["// mid"], pstrip l ≠ functionsStart)
      ∧ (∀ l ∈ ["static int my_helper(void);"], pstrip l ≠ functionsEnd)
      ∧ (∀ p ∈ ([⟨["void x(void)"], "setup", ["\tint y = 1;"]⟩,
            ⟨["// gap"], "get_x", []⟩] : List BodyPart),
          p.fname ≠ "" ∧ (∀ l ∈ p.body, pstrip l ≠ indicator)
            ∧ (∀ l ∈ p.boiler, reSearchStart (pstrip l).data = none))
      ∧ (∀ l ∈ ["// tail"], reSearchStart (pstrip l).data = none)
      ∧ (([⟨["void x(void)"], "setup", ["\tint y = 1;"]⟩,
            ⟨["// gap"], "get_x", []⟩] : List BodyPart).map (fun p => p.fname)).Nodup
      ∧ (∀ l ∈ ["// h1"], pstrip l ≠ typeEnumStart)
      ∧ (∀ l ∈ ["MY_ENUM = 4,"], pstrip l ≠ typeEnumEnd)
      ∧ (∀ l ∈ ["// h2"], pstrip l ≠ functionsStart))
    ∧ (cScraperInit (some (some (cWrittenFile ["// header"] ["#include <custom.h>"]
          ["// mid"] ["static int my_helper(void);"]
          [⟨["void x(void)"], "setup", ["\tint y = 1;"]⟩, ⟨["// gap"], "get_x", []⟩]
          ["// tail"])))
        = .ok ⟨["#include <custom.h>"], ["static int my_helper(void);"],
            partsDict [⟨["void x(void)"], "setup", ["\tint y = 1;"]⟩,
              ⟨["// gap"], "get_x", []⟩]⟩
      ∧ (∀ p ∈ ([⟨["void x(void)"], "setup", ["\tint y = 1;"]⟩,
            ⟨["// gap"], "get_x", []⟩] : List BodyPart),
          dictGet (partsDict [⟨["void x(void)"], "setup", ["\tint y = 1;"]⟩,
              ⟨["// gap"], "get_x", []⟩]) p.fname = some p.body
            ∧ writeCustomBody (partsDict [⟨["void x(void)"], "setup", ["\tint y = 1;"]⟩,
                ⟨["// gap"], "get_x", []⟩]) p.fname = bodyBlock p.fname p.body)
      ∧ hScraperInit (some (some (hWrittenFile ["// header"] ["#include <custom.h>"]
            ["// h1"] ["MY_ENUM = 4,"] ["// h2"] ["static int my_helper(void);"] ["// h3"])))
          = .ok ⟨["#include <custom.h>"], ["MY_ENUM = 4,"], ["static int my_helper(void);"]⟩) :=
  ⟨by decide,
   C1_roundtrip_stability ["// header"] ["#include <custom.h>"] ["// mid"]
     ["static int my_helper(void);"] ["// tail"] ["MY_ENUM = 4,"] ["// h1"] ["// h2"] ["// h3"]
     [⟨["void x(void)"], "setup", ["\tint y = 1;"]⟩, ⟨["// gap"], "get_x", []⟩]
     (by decide) (by decide) (by decide) (by decide) (by decide) (by decide) (by decide)
     (by decide) (by decide) (by decide)⟩

/-- C2: Per-function keying independence.  In a file written by the C flavor
containing body regions for two distinct function names `f` and `g`, the
per-function dictionary maps `f` to exactly its own written lines and `g` to
exactly its own written lines — content inserted under `f` never leaks into
the entry for `g` — and `write_custom_body` emits for `g` exactly the lines
captured under `g`; for any name with no entry it emits the two marker fences
with no content lines. -/
theorem C2_perfunction_keying
    (b0 incs b1 fns bF bG b2 : List String) (f g : String) (Bf Bg : List String)
    (hb0 : ∀ l ∈ b0, pstrip l ≠ includesStart)
    (hincs : ∀ l ∈ incs, pstrip l ≠ includesEnd)
    (hb1c : ∀ l ∈ b1, pstrip l ≠ functionsStart)
    (hfns : ∀ l ∈ fns, pstrip l ≠ functionsEnd)
    (hf : f ≠ "") (hg : g ≠ "") (hfg : f ≠ g)
    (hBf : ∀ l ∈ Bf, pstrip l ≠ indicator) (hBg : ∀ l ∈ Bg, pstrip l ≠ indicator)
    (hbF : ∀ l ∈ bF, reSearchStart (pstrip l).data = none)
    (hbG : ∀ l ∈ bG, reSearchStart (pstrip l).data = none)
    (hb2c : ∀ l ∈ b2, reSearchStart (pstrip l).data = none) :
    cScraperInit (some (some (cWrittenFile b0 incs b1 fns [⟨bF, f, Bf⟩, ⟨bG, g, Bg⟩] b2)))
        = .ok ⟨incs, fns, partsDict [⟨bF, f, Bf⟩, ⟨bG, g, Bg⟩]⟩
    ∧ dictGet (partsDict [⟨bF, f, Bf⟩, ⟨bG, g, Bg⟩]) f = some Bf
    ∧ dictGet (partsDict [⟨bF, f, Bf⟩, ⟨bG, g, Bg⟩]) g = some Bg
    ∧ writeCustomBody (partsDict [⟨bF, f, Bf⟩, ⟨bG, g, Bg⟩]) g = bodyBlock g Bg
    ∧ (∀ (d : FuncDict) (h : String), dictGet d h = none →
        writeCustomBody d h = bodyFence (startMarkerText h) ++ bodyFence (stopMarkerText h)) := by
  have hparts : ∀ p ∈ ([⟨bF, f, Bf⟩, ⟨bG, g, Bg⟩] : List BodyPart),
      p.fname ≠ "" ∧ (∀ l ∈ p.body, pstrip l ≠ indicator)
        ∧ (∀ l ∈ p.boiler, reSearchStart (pstrip l).data = none) := by
    intro p hp
    rcases List.mem_cons.mp hp with rfl | hp2
    · exact ⟨hf, hBf, hbF⟩
    · rcases List.mem_cons.mp hp2 with rfl | hp3
      · exact ⟨hg, hBg, hbG⟩
      · cases hp3
  have hnodup : (([⟨bF, f, Bf⟩, ⟨bG, g, Bg⟩] : List BodyPart).map (fun p => p.fname)).Nodup := by
    simp [hfg]
  have hgf := partsDict_get [⟨bF, f, Bf⟩, ⟨bG, g, Bg⟩] ⟨bF, f, Bf⟩ (by simp) hnodup
  have hgg := partsDict_get [⟨bF, f, Bf⟩, ⟨bG, g, Bg⟩] ⟨bG, g, Bg⟩ (by simp) hnodup
  refine ⟨cScrape_written b0 incs b1 fns b2 _ hb0 hincs hb1c hfns hparts hb2c, hgf, hgg, ?_, ?_⟩
  · unfold writeCustomBody bodyBlock
    rw [hgg]
    rfl
  · intro d h hd
    exact writeCustomBody_absent d h hd

theorem C2_perfunction_keying_witness :
    ((∀ l ∈ (["x"] : List String), pstrip l ≠ includesStart)
      ∧ ("get_foo" : String) ≠ "get_bar"
      ∧ (∀ l ∈ (["\tfoo body line"] : List String), pstrip l ≠ indicator))
    ∧ (cScraperInit (some (some (cWrittenFile ["x"] [] [] []
          [⟨[], "get_foo", ["\tfoo body line"]⟩, ⟨[], "get_bar", ["\tbar body line"]⟩] [])))
        = .ok ⟨[], [], partsDict [⟨[], "get_foo", ["\tfoo body line"]⟩,
            ⟨[], "get_bar", ["\tbar body line"]⟩]⟩
      ∧ dictGet (partsDict [⟨[], "get_foo", ["\tfoo body line"]⟩,
          ⟨[], "get_bar", ["\tbar body line"]⟩]) "get_foo" = some ["\tfoo body line"]
      ∧ dictGet (partsDict [⟨[], "get_foo", ["\tfoo body line"]⟩,
          ⟨[], "get_bar", ["\tbar body line"]⟩]) "get_bar" = some ["\tbar body line"]
      ∧ writeCustomBody (partsDict [⟨[], "get_foo", ["\tfoo body line"]⟩,
          ⟨[], "get_bar", ["\tbar body line"]⟩]) "get_bar" = bodyBlock "get_bar" ["\tbar body line"]
      ∧ (∀ (d : FuncDict) (h : String), dictGet d h = none →
          writeCustomBody d h = bodyFence (startMarkerText h) ++ bodyFence (stopMarkerText h))) :=
  ⟨by decide,
   C2_perfunction_keying ["x"] [] [] [] [] [] [] "get_foo" "get_bar"
     ["\tfoo body line"] ["\tbar body line"]
     (by decide) (by decide) (by decide) (by decide) (by decide) (by decide) (by decide)
     (by decide) (by decide) (by decide) (by decide) (by decide)⟩

/-- C4 counterexample: the stop regex is name-blind, so a closing fence whose
marker names a DIFFERENT function (`g`) nevertheless closes the region open
for `f`: the scan pops the last appended line (`"\tz"`) and returns to the
outside state, so the following line `"\ty"` is NOT accumulated into `f`.
Under the claim as stated (only the stop marker "for the currently open
function" closes), the region would stay open and `"\ty"` would accumulate. -/
theorem C4_counterexample :
    reMatchStop (pstrip "\t * |STOP CUSTOM FUNCTION g BODY").data = true
    ∧ findFuncCustomBodyInQueue
        ["\t * |START CUSTOM FUNCTION f BODY", "\tx", "\tz",
         "\t " ++ indicator, "\t * |STOP CUSTOM FUNCTION g BODY", "\ty"]
        = .ok [("f", ["\tx"])]
    ∧ ¬ ("\ty" ∈ (["\tx"] : List String)) := by
  refine ⟨rfl, rfl, by decide⟩

/-- C4 (amended): a region that is opened and whose closing indicator is
followed by a line that does not match the stop-marker pattern (for ANY
function name) is treated as still open — the scan continues in the same
open state, with the indicator line and its follower consumed — and a
stop-marker line for ANY non-empty function name closes the currently open
region, dropping exactly the one trailing line already appended to its
entry. -/
theorem C4_malformed_stop_amended
    (f gname l1 l2 : String) (ls : List String) (d : FuncDict) (e : String × List String)
    (h1 : pstrip l1 = indicator)
    (hfind : dictFind? d f = some e) (hne : e.2 ≠ [])
    (hg : gname ≠ "") :
    (reMatchStop (pstrip l2).data = false →
      findFuncCustomBodyLoop (l1 :: l2 :: ls) (some f) d
        = findFuncCustomBodyLoop ls (some f) d)
    ∧ findFuncCustomBodyLoop (l1 :: ("\t * " ++ stopMarkerText gname) :: ls) (some f) d
        = findFuncCustomBodyLoop ls none (mapEntry d f List.dropLast) := by
  constructor
  · intro h2
    exact ffcb_ind_skip l1 l2 ls f d h1 h2
  · exact ffcb_ind_close _ _ _ _ _ _ h1 (reMatchStop_stopline gname hg)
      (dictPopLast_eq_of_find d f e hfind hne)

theorem C4_malformed_stop_amended_witness :
    (pstrip ("\t " ++ indicator) = indicator
      ∧ dictFind? [("f", ["\ta", "\tb"])] "f" = some ("f", ["\ta", "\tb"])
      ∧ (("f", ["\ta", "\tb"]) : String × List String).2 ≠ []
      ∧ ("g" : String) ≠ "")
    ∧ ((reMatchStop (pstrip "// not a stop marker").data = false →
          findFuncCustomBodyLoop [("\t " ++ indicator), "// not a stop marker"]
              (some "f") [("f", ["\ta", "\tb"])]
            = findFuncCustomBodyLoop [] (some "f") [("f", ["\ta", "\tb"])])
      ∧ findFuncCustomBodyLoop
            [("\t " ++ indicator), "\t * " ++ stopMarkerText "g"]
            (some "f") [("f", ["\ta", "\tb"])]
          = findFuncCustomBodyLoop [] none
              (mapEntry [("f", ["\ta", "\tb"])] "f" List.dropLast)) :=
  ⟨by decide,
   C4_malformed_stop_amended "f" "g" ("\t " ++ indicator) "// not a stop marker" []
     [("f", ["\ta", "\tb"])] ("f", ["\ta", "\tb"])
     (by decide) (by decide) (by decide) (by decide)⟩

/-- C5: behavior at an unreadable scrape source.  `H_Scraper` raises
`NameError` (its `IOError` handler prints the undefined name `fd`), so
construction is NOT exception-free; `C_Scraper` catches the `IOError` but
then overwrites all three regions with the empty results of scanning an
empty queue, so its regions are NOT identical to the no-source construction,
which keeps the single placeholder line in each singleton region.  This
evaluates the embedded code at the failing input of the claim. -/
theorem C5_missing_source_behavior :
    hScraperInit (some none) = .error "NameError: name fd is not defined"
    ∧ cScraperInit (some none) = .ok ⟨[], [], []⟩
    ∧ cScraperInit none = .ok ⟨[todoPlaceholder], [todoPlaceholder], []⟩
    ∧ (⟨[], [], []⟩ : CScraperState) ≠ ⟨[todoPlaceholder], [todoPlaceholder], []⟩ := by
  refine ⟨rfl, rfl, rfl, by decide⟩

/-- C6 counterexample: the queue holds the file lines in reverse, so popping
processes the file in ORIGINAL order, and later extraction calls match marker
pairs appearing LATER in the file — the opposite of the claim.  In the first
file the functions marker pair (scanned second) appears EARLIER than the
includes pair, and its content `"fn1"` is lost (captured empty); in the second
file the functions pair appears LATER and is captured. -/
theorem C6_counterexample :
    cScraperInit (some (some (writeCustomFunctions ["fn1"] ++ writeCustomIncludes ["inc1"])))
        = .ok ⟨["inc1"], [], []⟩
    ∧ cScraperInit (some (some (writeCustomIncludes ["inc1"] ++ writeCustomFunctions ["fn1"])))
        = .ok ⟨["inc1"], ["fn1"], []⟩ := by
  exact ⟨rfl, rfl⟩

/-- C6 (amended): each extraction call consumes lines from the head of the
remaining queue, which holds the file lines in original order, so region
types scanned by LATER extraction calls correspond to marker pairs appearing
LATER in the file, and every line lying between two successively extracted
region types is silently discarded.  When the functions marker pair instead
appears EARLIER in the file than the includes pair, its entire region is
consumed by the includes scan and the functions capture comes back empty. -/
theorem C6_scan_order_amended
    (b0 fns b1 incs b2 : List String)
    (hb0 : ∀ l ∈ b0, pstrip l ≠ includesStart)
    (hfns0 : ∀ l ∈ fns, pstrip l ≠ includesStart)
    (hb1a : ∀ l ∈ b1, pstrip l ≠ includesStart)
    (hb1b : ∀ l ∈ b1, pstrip l ≠ functionsStart)
    (hincs : ∀ l ∈ incs, pstrip l ≠ includesEnd)
    (hfns : ∀ l ∈ fns, pstrip l ≠ functionsEnd)
    (hb2a : ∀ l ∈ b2, pstrip l ≠ functionsStart)
    (hb2b : ∀ l ∈ b2, reSearchStart (pstrip l).data = none) :
    cScraperInit (some (some (b0 ++ writeCustomIncludes incs ++ b1
        ++ writeCustomFunctions fns ++ b2)))
      = .ok ⟨incs, fns, []⟩
    ∧ cScraperInit (some (some (b0 ++ writeCustomFunctions fns ++ b1
        ++ writeCustomIncludes incs ++ b2)))
      = .ok ⟨incs, [], []⟩ := by
  constructor
  · have hfile : b0 ++ writeCustomIncludes incs ++ b1 ++ writeCustomFunctions fns ++ b2
        = cWrittenFile b0 incs b1 fns [] b2 := by
      simp [cWrittenFile]
    rw [hfile]
    have := cScrape_written b0 incs b1 fns b2 [] hb0 hincs hb1b hfns (by intro p hp; cases hp)
      hb2b
    simpa [partsDict] using this
  · have hfile2 : b0 ++ writeCustomFunctions fns ++ b1 ++ writeCustomIncludes incs ++ b2
        = (b0 ++ functionsStart :: (fns ++ [functionsEnd, ""]) ++ b1)
            ++ includesStart :: (incs ++ includesEnd :: ("" :: b2)) := by
      simp [writeCustomFunctions, writeCustomIncludes]
    have hr1 : findCustomIncludesInQueue ((b0 ++ functionsStart :: (fns ++ [functionsEnd, ""])
          ++ b1) ++ includesStart :: (incs ++ includesEnd :: ("" :: b2)))
        = (incs, "" :: b2) := by
      unfold findCustomIncludesInQueue
      refine scan_collect _ _ _ _ _ (fun l hl => ?_) (by decide) hincs (by decide)
      rcases List.mem_append.mp hl with hl1 | hl1
      · rcases List.mem_append.mp hl1 with hl2 | hl2
        · exact hb0 l hl2
        · rcases List.mem_cons.mp hl2 with rfl | hl3
          · decide
          · rcases List.mem_append.mp hl3 with hl4 | hl4
            · exact hfns0 l hl4
            · rcases List.mem_cons.mp hl4 with rfl | hl5
              · decide
              · rcases List.mem_cons.mp hl5 with rfl | hl6
                · decide
                · cases hl6
      · exact hb1a l hl1
    have hr2 : findCustomFunctionsInQueue ("" :: b2) = ([], []) := by
      unfold findCustomFunctionsInQueue
      have hscan : scanToMarker functionsStart ("" :: b2) = [] := by
        have hall : ∀ l ∈ ("" :: b2), pstrip l ≠ functionsStart := by
          intro l hl
          rcases List.mem_cons.mp hl with rfl | hl2
          · decide
          · exact hb2a l hl2
        have := scanToMarker_append functionsStart ("" :: b2) [] hall
        rw [List.append_nil] at this
        rw [this]
        rfl
      rw [hscan]
      rfl
    have e0 : cScraperInit (some (some ((b0 ++ functionsStart :: (fns ++ [functionsEnd, ""])
          ++ b1) ++ includesStart :: (incs ++ includesEnd :: ("" :: b2)))))
        = (match findFuncCustomBodyInQueue
              ((findCustomFunctionsInQueue
                ((findCustomIncludesInQueue ((b0 ++ functionsStart :: (fns
                  ++ [functionsEnd, ""]) ++ b1)
                    ++ includesStart :: (incs ++ includesEnd :: ("" :: b2)))).2)).2) with
           | .ok fb => .ok ⟨(findCustomIncludesInQueue ((b0 ++ functionsStart :: (fns
               ++ [functionsEnd, ""]) ++ b1)
                 ++ includesStart :: (incs ++ includesEnd :: ("" :: b2)))).1,
               (findCustomFunctionsInQueue
                 ((findCustomIncludesInQueue ((b0 ++ functionsStart :: (fns
                   ++ [functionsEnd, ""]) ++ b1)
                     ++ includesStart :: (incs ++ includesEnd :: ("" :: b2)))).2)).1, fb⟩
           | .error e => .error e) := rfl
    rw [hfile2, e0]
    simp only [hr1, hr2]
    rfl

theorem C6_scan_order_amended_witness :
    ((∀ l ∈ (["// a"] : List String), pstrip l ≠ includesStart)
      ∧ (∀ l ∈ (["fn1"] : List String), pstrip l ≠ includesStart)
      ∧ (∀ l ∈ (["// b"] : List String), pstrip l ≠ functionsStart)
      ∧ (∀ l ∈ (["inc1"] : List String), pstrip l ≠ includesEnd)
      ∧ (∀ l ∈ (["// c"] : List String), reSearchStart (pstrip l).data = none))
    ∧ (cScraperInit (some (some (["// a"] ++ writeCustomIncludes ["inc1"] ++ ["// b"]
          ++ writeCustomFunctions ["fn1"] ++ ["// c"])))
        = .ok ⟨["inc1"], ["fn1"], []⟩
      ∧ cScraperInit (some (some (["// a"] ++ writeCustomFunctions ["fn1"] ++ ["// b"]
          ++ writeCustomIncludes ["inc1"] ++ ["// c"])))
        = .ok ⟨["inc1"], [], []⟩) :=
  ⟨by decide,
   C6_scan_order_amended ["// a"] ["fn1"] ["// b"] ["inc1"] ["// c"]
     (by decide) (by decide) (by decide) (by decide) (by decide) (by decide)
     (by decide) (by decide)⟩

end Roundtrip

/-! Lemmas about the character-level substring search. -/

theorem data_append (a b : String) : (a ++ b).data = a.data ++ b.data := by
  cases a
  cases b
  rfl

theorem isPrefixOf_extend {p l m : List Char} (h : p.isPrefixOf l = true) :
    p.isPrefixOf (l ++ m) = true := by
  induction p generalizing l with
  | nil =>
    cases hx : l ++ m with
    | nil => rfl
    | cons z zs => rfl
  | cons x xs ih =>
    cases l with
    | nil => simp [List.isPrefixOf] at h
    | cons y ys =>
      simp only [List.cons_append]
      simp only [List.isPrefixOf, Bool.and_eq_true, beq_iff_eq] at h ⊢
      exact ⟨h.1, ih h.2⟩

theorem firstPosAux_isSome_iff (pat : List Char) :
    ∀ (s : List Char) (i : Nat),
      (firstPosAux pat s i).isSome = true ↔ ∃ k, pat.isPrefixOf (s.drop k) = true := by
  intro s
  induction s with
  | nil =>
    intro i
    unfold firstPosAux
    by_cases hp : pat.isPrefixOf [] = true
    · rw [if_pos hp]
      simp only [Option.isSome_some]
      exact ⟨fun _ => ⟨0, hp⟩, fun _ => by trivial⟩
    · rw [if_neg hp]
      simp only [Option.isSome_none]
      constructor
      · intro h
        exact absurd h (by simp)
      · rintro ⟨k, hk⟩
        rw [List.drop_nil] at hk
        exact absurd hk hp
  | cons c rest ih =>
    intro i
    unfold firstPosAux
    by_cases hp : pat.isPrefixOf (c :: rest) = true
    · rw [if_pos hp]
      simp only [Option.isSome_some]
      exact ⟨fun _ => ⟨0, hp⟩, fun _ => by trivial⟩
    · rw [if_neg hp]
      rw [ih (i + 1)]
      constructor
      · rintro ⟨k, hk⟩
        exact ⟨k + 1, hk⟩
      · rintro ⟨k, hk⟩
        cases k with
        | zero => exact absurd hk hp
        | succ k2 => exact ⟨k2, hk⟩

theorem strContains_iff (s pat : String) :
    strContains s pat = true ↔ ∃ k, pat.data.isPrefixOf (s.data.drop k) = true := by
  unfold strContains
  unfold strPos
  exact firstPosAux_isSome_iff pat.data s.data 0

theorem strContains_append_right (a b pat : String)
    (h : strContains b pat = true) : strContains (a ++ b) pat = true := by
  rw [strContains_iff] at h ⊢
  obtain ⟨k, hk⟩ := h
  refine ⟨a.data.length + k, ?_⟩
  rw [data_append, List.drop_append]
  exact hk

theorem strContains_append_left (a b pat : String)
    (h : strContains a pat = true) : strContains (a ++ b) pat = true := by
  rw [strContains_iff] at h ⊢
  obtain ⟨k, hk⟩ := h
  refine ⟨k, ?_⟩
  rw [data_append, List.drop_append_eq_append_drop]
  exact isPrefixOf_extend hk

namespace Tools

/-! Lemmas about the generation loop of `camp.tools.camp.run`. -/

theorem genLoop_ok_cons (gs : List GenOutcome) :
    genLoop (.ok :: gs)
      = ⟨(genLoop gs).attempted + 1, (genLoop gs).failures, (genLoop gs).aborted⟩ := rfl

theorem genLoop_io_cons (gs : List GenOutcome) :
    genLoop (.ioError :: gs)
      = ⟨(genLoop gs).attempted + 1, (genLoop gs).failures + 1, (genLoop gs).aborted⟩ := rfl

theorem countIo_ok_cons (gs : List GenOutcome) :
    countIoErrors (.ok :: gs) = countIoErrors gs := rfl

theorem countIo_io_cons (gs : List GenOutcome) :
    countIoErrors (.ioError :: gs) = countIoErrors gs + 1 := rfl

/-- Without a formatting exception the loop attempts every generator and only
counts the `IOError` failures. -/
theorem genLoop_no_format (gens : List GenOutcome) (h : GenOutcome.formatError ∉ gens) :
    genLoop gens = ⟨gens.length, countIoErrors gens, false⟩ := by
  induction gens with
  | nil => rfl
  | cons g gs ih =>
    have hg : g ≠ .formatError := fun hgf => h (hgf ▸ List.mem_cons_self g gs)
    have hgs : GenOutcome.formatError ∉ gs := fun hm => h (List.mem_cons_of_mem _ hm)
    cases g with
    | ok =>
      rw [genLoop_ok_cons, ih hgs]
      rfl
    | ioError =>
      rw [genLoop_io_cons, ih hgs]
      rfl
    | formatError => exact absurd rfl hg

/-- A formatting exception aborts the loop right after being counted. -/
theorem genLoop_abort (pre post : List GenOutcome) (hpre : GenOutcome.formatError ∉ pre) :
    genLoop (pre ++ .formatError :: post)
      = ⟨pre.length + 1, countIoErrors pre + 1, true⟩ := by
  induction pre with
  | nil => rfl
  | cons g gs ih =>
    have hg : g ≠ .formatError := fun hgf => hpre (hgf ▸ List.mem_cons_self g gs)
    have hgs : GenOutcome.formatError ∉ gs := fun hm => hpre (List.mem_cons_of_mem _ hm)
    cases g with
    | ok =>
      rw [List.cons_append, genLoop_ok_cons, ih hgs]
      rfl
    | ioError =>
      rw [List.cons_append, genLoop_io_cons, ih hgs]
      rfl
    | formatError => exact absurd rfl hg

/-- C3 counterexample: a non-`IOError` exception raised while one writer
formats its artifact is re-raised by `run` after being counted.  With the
outcome sequence `[formatError, ok]` the loop attempts only the first of the
two generators (not every remaining writer), aborts, and `run` propagates the
exception instead of returning exit code 2. -/
theorem C3_counterexample :
    genLoop [.formatError, .ok] = ⟨1, 1, true⟩
      ∧ runExitCode [.formatError, .ok] = none
      ∧ (genLoop [.formatError, .ok]).attempted
          ≠ ([GenOutcome.formatError, .ok] : List GenOutcome).length :=
  ⟨rfl, rfl, by decide⟩

/-- C3 (amended): only `IOError` failures are isolated.  When no writer raises
a non-`IOError` exception, the loop attempts every writer, counts exactly the
`IOError` failures, and `run` returns 2 iff any writer failed (0 otherwise).
The first non-`IOError` formatting exception is counted and then re-raised:
the loop stops after it, later writers are never attempted, and `run` returns
no exit code at all. -/
theorem C3_failure_isolation_amended (gens pre post : List GenOutcome)
    (hok : GenOutcome.formatError ∉ gens) (hpre : GenOutcome.formatError ∉ pre) :
    (genLoop gens = ⟨gens.length, countIoErrors gens, false⟩
      ∧ runExitCode gens = some (if countIoErrors gens = 0 then 0 else 2))
    ∧ genLoop (pre ++ .formatError :: post)
        = ⟨pre.length + 1, countIoErrors pre + 1, true⟩
    ∧ runExitCode (pre ++ .formatError :: post) = none := by
  refine ⟨⟨genLoop_no_format gens hok, ?_⟩, genLoop_abort pre post hpre, ?_⟩
  · unfold runExitCode
    rw [genLoop_no_format gens hok]
    by_cases h0 : countIoErrors gens = 0
    · simp [h0]
    · simp [h0]
  · unfold runExitCode
    rw [genLoop_abort pre post hpre]
    rfl

theorem C3_failure_isolation_amended_witness :
    (GenOutcome.formatError ∉ ([.ok, .ioError] : List GenOutcome)
      ∧ GenOutcome.formatError ∉ ([.ioError] : List GenOutcome))
    ∧ ((genLoop [.ok, .ioError] = ⟨2, 1, false⟩
        ∧ runExitCode [.ok, .ioError] = some 2)
      ∧ genLoop ([.ioError] ++ .formatError :: [.ok]) = ⟨2, 2, true⟩
      ∧ runExitCode ([.ioError] ++ .formatError :: [.ok]) = none) :=
  ⟨⟨by decide, by decide⟩,
   C3_failure_isolation_amended [.ok, .ioError] [.ioError] [.ok] (by decide) (by decide)⟩

end Tools

namespace Sql

open Adm

/-- A computation whose `toOption` view is `some a` succeeded with `a`. -/
theorem except_toOption_some {ε α : Type} (x : Except ε α) (a : α)
    (h : x.toOption = some a) : x = .ok a := by
  cases x with
  | ok b =>
    have hb : b = a := by simpa [Except.toOption] using h
    rw [hb]
  | error e => simp [Except.toOption] at h

/-- Sequencing in the `Except` monad: a successful composite run means the
first step succeeded and the continuation succeeded on its result. -/
theorem except_bind_ok {ε α β : Type} (x : Except ε α) (f : α → Except ε β) (b : β)
    (h : x >>= f = .ok b) : ∃ a, x = .ok a ∧ f a = .ok b := by
  cases x with
  | error e =>
    exfalso
    have he : (Except.error e : Except ε α) >>= f = .error e := rfl
    rw [he] at h
    exact Except.noConfusion h
  | ok a =>
    refine ⟨a, rfl, ?_⟩
    have ha : (Except.ok a : Except ε α) >>= f = f a := rfl
    rwa [ha] at h

/-- C7: SQL undefined-variable detection at finalization.  The undefined set
is exactly the recorded used-names minus the recorded defined-names;
`body_pre` raises iff that set is non-empty, the raised error carries exactly
that set, and otherwise finalization succeeds. -/
theorem C7_sql_undef_detection (adm : AdmModel) (st : SqlVars) :
    (∀ n, n ∈ undefVars st ↔ n ∈ st.vars_use ∧ n ∉ st.vars_def)
    ∧ (bodyPre adm st = .error (undefVars st) ↔ undefVars st ≠ [])
    ∧ (∀ s, bodyPre adm st = .error s →
        ∀ n, n ∈ s ↔ n ∈ st.vars_use ∧ n ∉ st.vars_def)
    ∧ (undefVars st = [] → ∃ lines, bodyPre adm st = .ok lines) := by
  have hmem : ∀ n, n ∈ undefVars st ↔ n ∈ st.vars_use ∧ n ∉ st.vars_def := by
    intro n
    simp [undefVars, List.mem_filter]
  by_cases h : undefVars st = []
  · have hb : bodyPre adm st
        = .ok (["DO", "$do$",
              "DECLARE adm_enum INTEGER := " ++ toString adm.enum ++ ";"]
          ++ (sortNames st.vars_def).map (fun n => "DECLARE " ++ n ++ " INTEGER;")
          ++ ["BEGIN", ""]) := by
      unfold bodyPre
      rw [if_pos h]
    refine ⟨hmem, ⟨fun he => ?_, fun hn => absurd h hn⟩, fun e he => ?_, fun _ => ⟨_, hb⟩⟩
    · rw [hb] at he
      exact Except.noConfusion he
    · rw [hb] at he
      exact Except.noConfusion he
  · have hb : bodyPre adm st = .error (undefVars st) := by
      unfold bodyPre
      rw [if_neg h]
    refine ⟨hmem, ⟨fun _ => h, fun _ => hb⟩, fun e he n => ?_, fun h0 => absurd h0 h⟩
    rw [hb] at he
    rw [← Except.error.inj he]
    exact hmem n

theorem C7_sql_undef_detection_witness :
    undefVars ⟨["a"], ["b", "a"]⟩ ≠ []
    ∧ bodyPre scenarioConstAdm ⟨["a"], ["b", "a"]⟩
        = .error (undefVars ⟨["a"], ["b", "a"]⟩) :=
  ⟨by decide,
   (C7_sql_undef_detection scenarioConstAdm ⟨["a"], ["b", "a"]⟩).2.1.mpr (by decide)⟩

/-- C10: for every ADM with a non-empty macro list, the SQL writer's macro
loop raises `NameError: name \x27m\x27 is not defined` (the per-macro loop reads an
undefined name), so the whole SQL `write` can only succeed when the macro list
is empty. -/
theorem C10_macro_nameerror (adm : AdmModel) (sqlNs : String) (st : SqlVars)
    (today : String) :
    (adm.mac ≠ [] →
      writeMacFunctions adm sqlNs st = .error "NameError: name \x27m\x27 is not defined")
    ∧ (∀ ls, sqlWrite adm today = .ok ls → adm.mac = []) := by
  have hmac : ∀ s2 t2, adm.mac ≠ [] →
      writeMacFunctions adm s2 t2 = .error "NameError: name \x27m\x27 is not defined" := by
    intro s2 t2 h
    unfold writeMacFunctions
    cases hm : adm.mac with
    | nil => exact absurd hm h
    | cons m ms => rfl
  refine ⟨hmac sqlNs st, ?_⟩
  intro ls h
  cases hm : adm.mac with
  | nil => rfl
  | cons m ms =>
    exfalso
    unfold sqlWrite at h
    obtain ⟨r4, hv, h2⟩ := except_bind_ok _ _ _ h
    obtain ⟨r9, hw, h3⟩ := except_bind_ok _ _ _ h2
    rw [hmac _ _ (by simp [hm])] at hw
    exact Except.noConfusion hw

theorem C10_macro_nameerror_witness :
    (scenarioMacAdm.mac ≠ []
      ∧ writeMacFunctions scenarioMacAdm "test_namespace_id" emptyVars
          = .error "NameError: name \x27m\x27 is not defined")
    ∧ scenarioConstAdm.mac = [] :=
  ⟨⟨by decide,
    (C10_macro_nameerror scenarioMacAdm "test_namespace_id" emptyVars "d").1 (by decide)⟩,
   by
    have hsome : (sqlWrite scenarioConstAdm "2024-01-01").toOption.isSome = true := by decide
    obtain ⟨ls, hls⟩ := Option.isSome_iff_exists.mp hsome
    exact (C10_macro_nameerror scenarioConstAdm "x" emptyVars "2024-01-01").2 ls
      (except_toOption_some _ _ hls)⟩

end Sql

/-- C8: end-to-end constant generation for the scenario ADM (one constant
`mySize` of type UINT, value 4, enumeration 3, namespace `test/adm`).  The ARI
token is the uppercase join `TEST_ADM` + `CNST` + `MYSIZE`; the enumeration 3
renders as `0x03`; the generated shared header contains the corresponding
`#define` line; and the generated SQL script contains exactly one
`SP__insert_const_actual_definition` call, carrying the constant\x27s
description, type and value. -/
theorem C8_end_to_end_constant :
    Util.makeAriNameFromStr "test/adm" .const "mySize" = "TEST_ADM_CNST_MYSIZE"
    ∧ pyHashHex 3 = "0x03"
    ∧ strContains (GenH.genHWrite scenarioConstAdm "2024-01-01")
        "#define TEST_ADM_CNST_MYSIZE 0x03\n" = true
    ∧ (Sql.sqlWrite scenarioConstAdm "2024-01-01").toOption.map
        (fun ls => ls.filter (fun l =>
          pyStartsWith l "CALL SP__insert_const_actual_definition"))
      = some ["CALL SP__insert_const_actual_definition(test_adm_cnst_mysize, \x27The size constant\x27, \x27UINT\x27, \x274\x27, test_adm_cnst_mysize_aid);"] := by
  refine ⟨by decide, by decide, ?_, by decide⟩
  have h0 : strContains (GenH.writeConstDefinitions scenarioConstAdm)
      "#define TEST_ADM_CNST_MYSIZE 0x03\n" = true := by decide
  exact strContains_append_left _ _ _ (strContains_append_left _ _ _
    (strContains_append_left _ _ _ (strContains_append_left _ _ _
      (strContains_append_left _ _ _ (strContains_append_right _ _ _ h0)))))

/-- C9 counterexample: the SQL writer does not use the claimed kind order
(metadata, constants, externally-defined-data, operators, ...).  On an ADM
with one EDD and one constant, the `-- EDD` block header appears at line 45
and the `-- CONST` block header at line 68 of the SQL artifact, so the
constants block does not precede the EDD block. -/
theorem C9_counterexample :
    (Sql.sqlWrite scenarioKindAdm "2024-01-01").toOption.map
        (fun ls => (ls.indexOf "-- EDD", ls.indexOf "-- CONST", ls.length))
      = some (45, 68, 78)
    ∧ 45 < 68 :=
  ⟨by decide, by decide⟩

/-- C9 (amended): each writer concatenates its kind-blocks in its own fixed,
hard-coded order, but the orders differ between writers.  The init-function
writer uses metadata, constants, EDDs, operators, variables, controls, macros,
report templates, table templates (for every ADM, and observably in its
generated call sequence); the SQL writer uses metadata, EDDs, operators,
variables, table templates, report templates, controls, constants, macros (its
block headers appear at strictly increasing lines in that order); and the
shared header writer places its EDD section before its constant section. -/
theorem C9_kind_order_amended :
    (∀ adm : Adm.AdmModel, (Campch.initObjTypes adm).map Prod.fst
      = [.meta, .const, .edd, .op, .var, .ctrl, .mac, .rptt, .tblt])
    ∧ [strPos "_init_meta();" (Campch.writeInitFunction scenarioKindAdm "g_test_adm_idx" false),
       strPos "_init_cnst();" (Campch.writeInitFunction scenarioKindAdm "g_test_adm_idx" false),
       strPos "_init_edd();" (Campch.writeInitFunction scenarioKindAdm "g_test_adm_idx" false),
       strPos "_init_op();" (Campch.writeInitFunction scenarioKindAdm "g_test_adm_idx" false),
       strPos "_init_var();" (Campch.writeInitFunction scenarioKindAdm "g_test_adm_idx" false),
       strPos "_init_ctrl();" (Campch.writeInitFunction scenarioKindAdm "g_test_adm_idx" false),
       strPos "_init_mac();" (Campch.writeInitFunction scenarioKindAdm "g_test_adm_idx" false),
       strPos "_init_rpttpl();" (Campch.writeInitFunction scenarioKindAdm "g_test_adm_idx" false),
       strPos "_init_tblt();" (Campch.writeInitFunction scenarioKindAdm "g_test_adm_idx" false)]
      = [some 622, some 645, some 668, some 690, some 711, some 733, some 756,
         some 778, some 803]
    ∧ (Sql.sqlWrite scenarioKindAdm "2024-01-01").toOption.map
        (fun ls => [ls.indexOf "-- MDAT", ls.indexOf "-- EDD", ls.indexOf "-- OPER",
          ls.indexOf "-- VAR", ls.indexOf "-- TBLT", ls.indexOf "-- RPTT",
          ls.indexOf "-- CTRL", ls.indexOf "-- CONST", ls.indexOf "-- MAC", ls.length])
      = some [42, 45, 53, 56, 59, 62, 65, 68, 74, 78]
    ∧ (∀ (adm : Adm.AdmModel) (today : String),
        ∃ pre v r t c m i cl e : String,
          GenH.genHWrite adm today
            = pre ++ GenH.writeEddDefinitions adm ++ v ++ r ++ t ++ c
              ++ GenH.writeConstDefinitions adm ++ m ++ GenH.writeOpDefinitions adm
              ++ i ++ cl ++ e) :=
  ⟨fun _ => rfl, by decide, by decide,
   fun adm today => ⟨_, _, _, _, _, _, _, _, _, rfl⟩⟩

end Camp
